import Mathlib

/-!
# Verification of the native-groups orchestrator

Shallow embedding of `custom_components/native_groups` (orchestrator,
classifier, mapping data model, and the Z-Wave handler's brightness
conversion), together with proofs about the provisioning pipeline,
reconciliation, dispatch routing, scene-store retries, the scene-id
allocator and the persistence round-trip.

Conventions used throughout:
* Python `dict`s (which preserve insertion order) are embedded as
  association lists `List (String × α)`; `alookup` is `d.get(k)`.
* Python `None`-able values are embedded as `Option`.
* Protocol-native identifiers (Z-Wave node ids, IEEE addresses, …) are
  embedded as `Option String`; `none` stands for a Python-falsy native id
  (`None`).
* Fallible `async` handler operations are embedded as pure oracles
  returning `Except String α`; the exact backend I/O is out of scope, the
  orchestrator only branches on success/failure and on returned values.
* Timestamps (`time.time()`) are abstract ticks (`Nat`); the persistence
  layer carries them opaquely.
* Sleep durations are rationals measured in seconds.
-/

set_option autoImplicit false
set_option maxRecDepth 8192

namespace NativeGroups

/-! ## Association-list helpers (Python `dict` semantics) -/

/-- Embeds `d.get(k)`: first value stored under key `k`. -/
def alookup {α : Type} (k : String) : List (String × α) → Option α
  | [] => none
  | (k', v) :: rest => if k = k' then some v else alookup k rest

/-- Embeds `d[k] = v`: replace the value under `k` in place, or append a new entry. -/
def assocSet {α : Type} : List (String × α) → String → α → List (String × α)
  | [], k, v => [(k, v)]
  | (k', v') :: rest, k, v =>
    if k' = k then (k, v) :: rest else (k', v') :: assocSet rest k v

/-- Embeds `d[k].append(v)` on a `defaultdict(list)`: append `v` to the bucket of
`k`, creating the bucket at the end if `k` is absent. -/
def assocAppend {α : Type} : List (String × List α) → String → α → List (String × List α)
  | [], k, v => [(k, [v])]
  | (k', vs) :: rest, k, v =>
    if k' = k then (k', vs ++ [v]) :: rest else (k', vs) :: assocAppend rest k v

/-- Embeds `d.pop(k, default)`: drop the entry stored under `k`. -/
def assocErase {α : Type} : List (String × α) → String → List (String × α)
  | [], _ => []
  | (k', v) :: rest, k =>
    if k' = k then rest else (k', v) :: assocErase rest k

/-- Embeds `s.add(v)` on a Python `set`, embedded as a duplicate-free list. -/
def setAdd (s : List String) (v : String) : List String :=
  if v ∈ s then s else s ++ [v]

/-- Embeds `self._managed_resources[key].add(v)` on a `defaultdict(set)`. -/
def assocAddResource : List (String × List String) → String → String → List (String × List String)
  | [], k, v => [(k, [v])]
  | (k', s) :: rest, k, v =>
    if k' = k then (k', setAdd s v) :: rest else (k', s) :: assocAddResource rest k v

/-- Python truthiness of an optional string (`None` and `""` are falsy). -/
def pyTruthy : Option String → Bool
  | none => false
  | some s => s ≠ ""

/-- Python `str(x)` for an optional group id (`str(None) = "None"`). -/
def pyStr : Option String → String
  | none => "None"
  | some s => s

/-- Python `s.startswith(pre)`. -/
def pyStartsWith (s pre : String) : Bool :=
  pre.data.isPrefixOf s.data

/-! ## Constants (`const.py`) -/

def PROTOCOL_ZWAVE_JS : String := "zwave_js"
def PROTOCOL_ZIGBEE2MQTT : String := "zigbee2mqtt"
def PROTOCOL_ZHA : String := "zha"
def PROTOCOL_UNKNOWN : String := "unknown"

def GROUPING_TYPE_GROUP : String := "group"
def GROUPING_TYPE_SCENE : String := "scene"
def GROUPING_TYPE_AREA : String := "area"
def GROUPING_TYPE_FLOOR : String := "floor"
def GROUPING_TYPE_LABEL : String := "label"

/-- Embeds `SCENE_ID_START`: the bottom of the reserved scene-id range. -/
def SCENE_ID_START : Nat := 100

/-- Embeds `SCENE_ID_MAX`: the top of the reserved scene-id range. -/
def SCENE_ID_MAX : Nat := 255

def ZWAVE_CAP_BINARY : String := "binary"
def ZWAVE_CAP_DIMMER : String := "dimmer"
def ZWAVE_CAP_COLOR : String := "color"

/-! ## Data model (`mapping.py`) -/

/-- Embeds `ProtocolInfo`: per-entity classification result.  Only the fields the
orchestrator reads during provisioning are embedded (`node_id`,
`ieee_address`, `endpoint` and `friendly_name` are protocol-internal
copies of `native_id` and are never read by the orchestrator). -/
structure ProtocolInfo where
  protocol : String
  native_id : Option String
  entity_id : String
  capability : Option String := none
deriving DecidableEq, Repr

/-- Embeds `NativeGroupRef`: one protocol's native group backing a logical
grouping.  `group_id = none` models the singleton case where no native
group was created. -/
structure NativeGroupRef where
  protocol : String
  group_id : Option String
  group_name : String
  member_entity_ids : List String
  member_native_ids : List (Option String)
deriving DecidableEq, Repr

/-- Embeds `NativeSceneRef`: one protocol's native scene backing an HA scene. -/
structure NativeSceneRef where
  protocol : String
  group_name : String
  scene_id : Nat
  member_entity_ids : List String
deriving DecidableEq, Repr

/-- Embeds `GroupMapping`: the persisted record for one logical grouping key.
`command_batches` is omitted: it is never populated by the provisioning
pipeline and is not serialized by `to_dict`. -/
structure GroupMapping where
  ha_entity_id : String
  ha_entity_type : String
  native_groups : List (String × NativeGroupRef) := []
  native_scenes : List (String × NativeSceneRef) := []
  ungrouped_entities : List String := []
  last_synced : Nat := 0
  sync_error : Option String := none
deriving DecidableEq, Repr

/-! ## Persistence dictionary (`GroupMapping.to_dict` / `from_dict`)

The serialized blob is a JSON-like dictionary.  `ha_entity_id` and
`ha_entity_type` are read with `data[...]` (required keys); every other
key is read with `data.get(...)` and may be absent, which the embedding
models with an outer `Option`.  The per-entry sub-dictionaries produced
for `NativeGroupRef`/`NativeSceneRef` carry exactly the dataclass fields,
so `NativeGroupRef(**v)` is the identity on them and the buckets are
embedded by the reference structures themselves. -/
structure MappingDict where
  ha_entity_id : String
  ha_entity_type : String
  native_groups : Option (List (String × NativeGroupRef)) := none
  native_scenes : Option (List (String × NativeSceneRef)) := none
  ungrouped_entities : Option (List String) := none
  last_synced : Option Nat := none
  sync_error : Option (Option String) := none
deriving DecidableEq, Repr

/-- Embeds `GroupMapping.to_dict`: serialize every persisted field. -/
def GroupMapping.to_dict (m : GroupMapping) : MappingDict :=
  { ha_entity_id := m.ha_entity_id
    ha_entity_type := m.ha_entity_type
    native_groups := some m.native_groups
    native_scenes := some m.native_scenes
    ungrouped_entities := some m.ungrouped_entities
    last_synced := some m.last_synced
    sync_error := some m.sync_error }

/-- Embeds `GroupMapping.from_dict`: deserialize, defaulting the optional keys
(`ungrouped_entities` → `[]`, `last_synced` → `0`, `sync_error` → `None`,
`native_groups`/`native_scenes` → `{}`). -/
def GroupMapping.from_dict (d : MappingDict) : GroupMapping :=
  { ha_entity_id := d.ha_entity_id
    ha_entity_type := d.ha_entity_type
    native_groups := d.native_groups.getD []
    native_scenes := d.native_scenes.getD []
    ungrouped_entities := d.ungrouped_entities.getD []
    last_synced := d.last_synced.getD 0
    sync_error := d.sync_error.getD none }

/-! ## Scene-id allocator (`_allocate_scene_id`) -/

/-- Embeds `_allocate_scene_id`: return the current counter and advance it,
wrapping to `SCENE_ID_START` once the counter exceeds `SCENE_ID_MAX`. -/
def allocateSceneId (counter : Nat) : Nat × Nat :=
  let scene_id := counter
  let next := counter + 1
  (scene_id, if next > SCENE_ID_MAX then SCENE_ID_START else next)

/-- Allocate `n` scene ids in sequence starting from `counter`. -/
def allocSeq : Nat → Nat → List Nat
  | 0, _ => []
  | n + 1, counter =>
    let a := allocateSceneId counter
    a.1 :: allocSeq n a.2

/-! ## Z-Wave brightness conversion (`handlers/zwave_js.py`) -/

/-- Embeds `level = int(brightness * 99 / 255)` from `_send_multilevel_command`
(`int` truncation on a non-negative value is `Nat` division). -/
def zwaveMultilevelLevel (brightness : Nat) : Nat :=
  brightness * 99 / 255

/-- Embeds `ZWaveJSHandler.convert_service_data`: translate HA service data into
the Z-Wave scene-actuator vocabulary (`level` plus optional `duration`). -/
def zwaveConvertServiceData (service : String) (brightness : Option Nat)
    (transition : Option Nat) : List (String × Nat) :=
  let result : List (String × Nat) :=
    match brightness with
    | some b => [("level", b * 99 / 255)]
    | none =>
      if service = "turn_on" then [("level", 99)]
      else if service = "turn_off" then [("level", 0)]
      else []
  match transition with
  | some t => result ++ [("duration", t)]
  | none => result

/-! ## Entity classification (`classifier.py`)

`classify_entity` is a pure function of the current registry snapshot.
The registry lookups (entity registry, device registry, state machine)
are external collaborators; the embedding abstracts them as an oracle
giving, per entity id, the resolved protocol, native id and capability.
`classify_entity` always copies the queried `entity_id` into the result. -/
structure ClassifyResult where
  protocol : String
  native_id : Option String
  capability : Option String
deriving DecidableEq, Repr

abbrev RegistryEnv := String → ClassifyResult

/-- Embeds `EntityClassifier.classify_entity`. -/
def classifyEntity (env : RegistryEnv) (entityId : String) : ProtocolInfo :=
  { protocol := (env entityId).protocol
    native_id := (env entityId).native_id
    entity_id := entityId
    capability := (env entityId).capability }

/-- Embeds `EntityClassifier.classify_entities`: classify each entity and bucket
the results by protocol (a `defaultdict(list)`, keys in first-seen order). -/
def classifyEntities (env : RegistryEnv) (entityIds : List String) :
    List (String × List ProtocolInfo) :=
  entityIds.foldl
    (fun acc eid =>
      let info := classifyEntity env eid
      assocAppend acc info.protocol info)
    []

/-! ## Protocol handlers (`handlers/`)

A `Handler` bundles the handler operations the orchestrator consults
during provisioning, as pure oracles.  `createGroup` /
`createCapabilityGroups` return the backend's group id on success
(every concrete handler returns the group name it was given);
`storeScene` gives the outcome of the `attempt`-th store attempt (the
per-device state payloads are carried by the emitted call trace, not by
the oracle). -/
structure Handler where
  isZWaveJS : Bool := false
  createGroup : String → List (Option String) → Except String String
  createCapabilityGroups : String → List (String × List String) → Except String String
  supportsNativeScenes : Bool := true
  storeScene : Nat → Except String Unit

/-- Embeds `self._handlers.get(protocol)`: the active handler for a protocol. -/
abbrev Handlers := String → Option Handler

/-- The observable side effects a provisioning / dispatch / cleanup run
issues against the backends (plus `asyncio.sleep`, for retry backoff). -/
inductive BackendCall where
  | createGroup (protocol name : String) (memberNativeIds : List (Option String))
  | createCapabilityGroups (protocol baseName : String)
      (membersByCapability : List (String × List String))
  | deleteGroup (protocol groupId : String)
  | removeScene (protocol groupName : String) (sceneId : Nat)
  | storeScene (protocol groupName : String) (sceneId : Nat) (attempt : Nat)
  | sleep (seconds : ℚ)
  | recallScene (protocol groupName : String) (sceneId : Nat)
  | sendGroupCommand (protocol groupId domain service : String)
  | sendMulticast (protocol : String) (nativeIds : List (Option String))
      (domain service : String)
  | serviceCall (domain service entityId : String)
deriving DecidableEq, Repr

/-- The protocol a backend call is addressed to (`none` for the calls that
go through HA itself: per-entity service calls and sleeps). -/
def BackendCall.protocolOf : BackendCall → Option String
  | .createGroup p _ _ => some p
  | .createCapabilityGroups p _ _ => some p
  | .deleteGroup p _ => some p
  | .removeScene p _ _ => some p
  | .storeScene p _ _ _ => some p
  | .sleep _ => none
  | .recallScene p _ _ => some p
  | .sendGroupCommand p _ _ _ => some p
  | .sendMulticast p _ _ _ => some p
  | .serviceCall _ _ _ => none

/-! ## Common provisioning (`_provision_entity_list`) -/

/-- Embeds `_generate_group_name`: `"ha_" + key.replace(".", "_") + "_" + protocol`
(replacing the one-character pattern `"."` is a per-character
substitution). -/
def generateGroupName (haEntityId protocol : String) : String :=
  "ha_" ++ String.mk (haEntityId.data.map fun c => if c = '.' then '_' else c)
    ++ "_" ++ protocol

/-- The node ids collected for one capability bucket in
`_create_zwave_capability_groups`: entities whose capability equals `cap`
and whose native id is truthy, in entity order. -/
def capabilityMembers (cap : String) (entities : List ProtocolInfo) : List String :=
  entities.filterMap fun e =>
    if e.capability = some cap then
      if pyTruthy e.native_id then e.native_id else none
    else none

/-- Embeds `_create_zwave_capability_groups`: split a Z-Wave group into
capability sub-groups; entities with no capability are returned as the
ungrouped leftovers.  A non-Z-Wave handler falls back to a plain group.
Returns the attempted result together with the backend call issued. -/
def createZwaveCapabilityGroups (handler : Handler) (protocol groupName : String)
    (entities : List ProtocolInfo) :
    Except String (String × List String) × List BackendCall :=
  if ¬ handler.isZWaveJS then
    ((handler.createGroup groupName (entities.map (·.native_id))).map fun gid => (gid, []),
     [.createGroup protocol groupName (entities.map (·.native_id))])
  else
    let ungrouped := (entities.filter fun e => decide (e.capability = none)).map (·.entity_id)
    let membersByCapability :=
      [(ZWAVE_CAP_BINARY, capabilityMembers ZWAVE_CAP_BINARY entities),
       (ZWAVE_CAP_DIMMER, capabilityMembers ZWAVE_CAP_DIMMER entities),
       (ZWAVE_CAP_COLOR, capabilityMembers ZWAVE_CAP_COLOR entities)]
    ((handler.createCapabilityGroups groupName membersByCapability).map fun gid =>
        (gid, ungrouped),
     [.createCapabilityGroups protocol groupName membersByCapability])

/-- The effect of one iteration of the per-protocol loop of
`_provision_entity_list` (lines 751–809): the `native_groups` entry (if
any), the entities diverted to `ungrouped_entities`, the recorded
`sync_error`, the managed-resource references added, and the backend
calls issued. -/
structure BucketOutcome where
  entry : Option NativeGroupRef
  ungrouped : List String
  err : Option String
  resources : List String
  calls : List BackendCall
deriving Repr

/-- The group-creation attempt of the per-protocol loop body (the `try`
block up to the assignment of `native_group_id` / `ungrouped_from_protocol`):
capability sub-grouping for a multi-member Z-Wave bucket, a plain
`create_group` for any other multi-member bucket, and no backend call at
all for a single member (`native_group_id = None`). -/
def bucketAttempt (handler : Handler) (protocol groupName : String)
    (entities : List ProtocolInfo) :
    Except String (Option String × List String) × List BackendCall :=
  if protocol = PROTOCOL_ZWAVE_JS ∧ entities.length > 1 then
    let r := createZwaveCapabilityGroups handler protocol groupName entities
    (r.1.map fun p => (some p.1, p.2), r.2)
  else if entities.length > 1 then
    ((handler.createGroup groupName (entities.map (·.native_id))).map fun gid =>
        (some gid, []),
     [.createGroup protocol groupName (entities.map (·.native_id))])
  else
    (.ok (none, []), [])

def bucketOutcome (handlers : Handlers) (mappingKey : String)
    (protocol : String) (entities : List ProtocolInfo) : BucketOutcome :=
  match handlers protocol with
  | none => ⟨none, entities.map (·.entity_id), none, [], []⟩
  | some handler =>
    if entities.isEmpty then ⟨none, entities.map (·.entity_id), none, [], []⟩
    else
      let groupName := generateGroupName mappingKey protocol
      let attempt := bucketAttempt handler protocol groupName entities
      match attempt.1 with
      | .error e => ⟨none, [], some e, [], attempt.2⟩
      | .ok (nativeGroupId, ungroupedFromProtocol) =>
        let grouped := entities.filter fun e => decide (e.entity_id ∉ ungroupedFromProtocol)
        let ref : NativeGroupRef :=
          { protocol := protocol
            group_id := nativeGroupId
            group_name := groupName
            member_entity_ids := grouped.map (·.entity_id)
            member_native_ids := grouped.map (·.native_id) }
        let resources :=
          if pyTruthy nativeGroupId then [protocol ++ ":group:" ++ pyStr nativeGroupId]
          else []
        ⟨some ref, ungroupedFromProtocol, none, resources, attempt.2⟩

/-- Accumulated result of a provisioning pass over one logical grouping:
the mapping under construction, the managed-resource references to add,
and the backend calls issued so far. -/
structure ProvisionResult where
  mapping : GroupMapping
  resources : List String
  calls : List BackendCall
deriving Repr

/-- One iteration of the per-protocol loop of `_provision_entity_list`,
folding a `BucketOutcome` into the accumulated mapping (lists are
`extend`ed, a raised error overwrites `sync_error`). -/
def provisionFoldStep (handlers : Handlers) (mappingKey : String)
    (acc : ProvisionResult) (bucket : String × List ProtocolInfo) : ProvisionResult :=
  let out := bucketOutcome handlers mappingKey bucket.1 bucket.2
  { mapping :=
      { acc.mapping with
        native_groups :=
          acc.mapping.native_groups ++ (out.entry.map fun r => (bucket.1, r)).toList
        ungrouped_entities := acc.mapping.ungrouped_entities ++ out.ungrouped
        sync_error :=
          match out.err with
          | some e => some e
          | none => acc.mapping.sync_error }
    resources := acc.resources ++ out.resources
    calls := acc.calls ++ out.calls }

/-- Embeds `_provision_entity_list` without the surrounding state update:
classify the members by protocol and run the per-protocol loop. -/
def provisionEntityListCore (handlers : Handlers) (env : RegistryEnv)
    (mappingKey groupingType : String) (entityIds : List String) : ProvisionResult :=
  let byProtocol := classifyEntities env entityIds
  let initMapping : GroupMapping :=
    { ha_entity_id := mappingKey, ha_entity_type := groupingType }
  byProtocol.foldl (provisionFoldStep handlers mappingKey) ⟨initMapping, [], []⟩

/-! ## Orchestrator state -/

/-- The orchestrator's in-memory state: the mapping table, the
managed-resources index, and the scene-id counter. -/
structure OrchState where
  mappings : List (String × GroupMapping) := []
  managed_resources : List (String × List String) := []
  scene_id_counter : Nat := SCENE_ID_START
deriving DecidableEq, Repr

/-- Embeds `_provision_entity_list`: empty member list is an immediate no-op;
otherwise run the per-protocol loop, store the mapping under its key and
add the new managed resources. -/
def provisionEntityList (handlers : Handlers) (env : RegistryEnv) (st : OrchState)
    (mappingKey groupingType : String) (entityIds : List String) :
    OrchState × List BackendCall :=
  if entityIds.isEmpty then (st, [])
  else
    let core := provisionEntityListCore handlers env mappingKey groupingType entityIds
    ({ st with
        mappings := assocSet st.mappings mappingKey core.mapping
        managed_resources :=
          core.resources.foldl (fun mr r => assocAddResource mr mappingKey r)
            st.managed_resources },
     core.calls)

/-- Embeds `_provision_group`: `stateMembers` is the group state's `entity_id`
attribute (`none` when `hass.states.get` finds no state).  A missing
state or empty member list is a no-op. -/
def provisionGroup (handlers : Handlers) (env : RegistryEnv) (st : OrchState)
    (groupId : String) (stateMembers : Option (List String)) :
    OrchState × List BackendCall :=
  match stateMembers with
  | none => (st, [])
  | some members =>
    if members.isEmpty then (st, [])
    else provisionEntityList handlers env st groupId GROUPING_TYPE_GROUP members

/-- Embeds `_provision_area`: `resolved` is the entity set resolved from the
area/device registries (a registry collaborator, out of scope); an empty
set is a no-op (`if entity_ids:` guard). -/
def provisionArea (handlers : Handlers) (env : RegistryEnv) (st : OrchState)
    (areaId : String) (resolved : List String) : OrchState × List BackendCall :=
  if resolved.isEmpty then (st, [])
  else provisionEntityList handlers env st ("area." ++ areaId) GROUPING_TYPE_AREA resolved

/-- Embeds `_provision_floor`, with the registry-resolved entity set as input. -/
def provisionFloor (handlers : Handlers) (env : RegistryEnv) (st : OrchState)
    (floorId : String) (resolved : List String) : OrchState × List BackendCall :=
  if resolved.isEmpty then (st, [])
  else provisionEntityList handlers env st ("floor." ++ floorId) GROUPING_TYPE_FLOOR resolved

/-- Embeds `_provision_label`, with the registry-resolved entity set as input. -/
def provisionLabel (handlers : Handlers) (env : RegistryEnv) (st : OrchState)
    (labelId : String) (resolved : List String) : OrchState × List BackendCall :=
  if resolved.isEmpty then (st, [])
  else provisionEntityList handlers env st ("label." ++ labelId) GROUPING_TYPE_LABEL resolved

/-! ## Scene provisioning (`_provision_scene`, `_provision_native_scene`) -/

/-- A scene member's desired target state (an opaque attribute dict). -/
abbrev TargetState := List (String × String)

/-- One element of a `by_protocol` bucket in `_provision_scene`: the
tuple `(entity_id, info, target_state)`. -/
structure SceneEntity where
  entity_id : String
  info : ProtocolInfo
  target : TargetState
deriving DecidableEq, Repr

/-- The scene-member classification loop of `_provision_scene`. -/
def classifySceneEntities (env : RegistryEnv)
    (entitiesConfig : List (String × TargetState)) : List (String × List SceneEntity) :=
  entitiesConfig.foldl
    (fun acc et =>
      let info := classifyEntity env et.1
      assocAppend acc info.protocol ⟨et.1, info, et.2⟩)
    []

/-- The store-with-retry loop of `_provision_native_scene`:
`for attempt in range(maxRetries)` with `fuel` attempts remaining
(including the current one); a failed non-final attempt sleeps
`0.5 * (attempt + 1)` seconds, a failed final attempt re-raises.
Returns the call trace (store attempts and sleeps) and the outcome. -/
def sceneStoreRetryGo (store : Nat → Except String Unit) (protocol groupName : String)
    (sceneId : Nat) : Nat → Nat → List BackendCall × Except String Unit
  | _, 0 => ([], .ok ())
  | attempt, fuel + 1 =>
    match store attempt with
    | .ok _ => ([.storeScene protocol groupName sceneId attempt], .ok ())
    | .error e =>
      if fuel = 0 then ([.storeScene protocol groupName sceneId attempt], .error e)
      else
        let rest := sceneStoreRetryGo store protocol groupName sceneId (attempt + 1) fuel
        (.storeScene protocol groupName sceneId attempt
            :: .sleep ((1 : ℚ) / 2 * ((attempt : ℚ) + 1)) :: rest.1,
         rest.2)

/-- The store-scene retry loop with `max_retries = 3`, starting at
attempt 0. -/
def sceneStoreRetry (store : Nat → Except String Unit) (protocol groupName : String)
    (sceneId : Nat) : List BackendCall × Except String Unit :=
  sceneStoreRetryGo store protocol groupName sceneId 0 3

/-- The effect of one iteration of the per-protocol loop of
`_provision_scene` (mirrors `BucketOutcome` for native scenes). -/
structure SceneBucketOutcome where
  entry : Option NativeSceneRef
  ungrouped : List String
  err : Option String
  resources : List String
  calls : List BackendCall
deriving Repr

/-- Embeds `_provision_native_scene`: create the backing group, store the scene
with retries, and on success record the `NativeSceneRef` plus two
managed-resource references; any raised error lands in `sync_error`
(and nothing is recorded). -/
def provisionNativeSceneModel (handler : Handler) (protocol sceneId : String)
    (nativeSceneId : Nat) (entities : List SceneEntity) : SceneBucketOutcome :=
  let groupName := generateGroupName sceneId protocol
  let nativeIds := entities.map (·.info.native_id)
  match handler.createGroup groupName nativeIds with
  | .error e => ⟨none, [], some e, [], [.createGroup protocol groupName nativeIds]⟩
  | .ok _ =>
    let retry := sceneStoreRetry handler.storeScene protocol groupName nativeSceneId
    match retry.2 with
    | .ok _ =>
      ⟨some
          { protocol := protocol
            group_name := groupName
            scene_id := nativeSceneId
            member_entity_ids := entities.map (·.entity_id) },
        [], none,
        [protocol ++ ":group:" ++ groupName,
         protocol ++ ":scene:" ++ groupName ++ ":" ++ toString nativeSceneId],
        .createGroup protocol groupName nativeIds :: retry.1⟩
    | .error e =>
      ⟨none, [], some e, [], .createGroup protocol groupName nativeIds :: retry.1⟩

/-- One iteration of the per-protocol loop of `_provision_scene`: an
absent handler or an empty bucket falls back to `ungrouped_entities`, a
native scene is attempted only when the handler supports native scenes
and the bucket has more than one member. -/
def sceneBucketOutcome (handlers : Handlers) (sceneId : String) (nativeSceneId : Nat)
    (protocol : String) (entities : List SceneEntity) : SceneBucketOutcome :=
  match handlers protocol with
  | none => ⟨none, entities.map (·.entity_id), none, [], []⟩
  | some handler =>
    if entities.isEmpty then ⟨none, entities.map (·.entity_id), none, [], []⟩
    else if handler.supportsNativeScenes ∧ entities.length > 1 then
      provisionNativeSceneModel handler protocol sceneId nativeSceneId entities
    else
      ⟨none, entities.map (·.entity_id), none, [], []⟩

/-- One iteration of the per-protocol loop of `_provision_scene`, folded
into the accumulated mapping. -/
def sceneFoldStep (handlers : Handlers) (sceneId : String) (nativeSceneId : Nat)
    (acc : ProvisionResult) (bucket : String × List SceneEntity) : ProvisionResult :=
  let out := sceneBucketOutcome handlers sceneId nativeSceneId bucket.1 bucket.2
  { mapping :=
      { acc.mapping with
        native_scenes :=
          acc.mapping.native_scenes ++ (out.entry.map fun r => (bucket.1, r)).toList
        ungrouped_entities := acc.mapping.ungrouped_entities ++ out.ungrouped
        sync_error :=
          match out.err with
          | some e => some e
          | none => acc.mapping.sync_error }
    resources := acc.resources ++ out.resources
    calls := acc.calls ++ out.calls }

/-- Embeds `_provision_scene` without the surrounding state update: classify the
scene members, allocate one native scene id, and run the per-protocol
loop.  Also returns the advanced scene-id counter. -/
def provisionSceneCore (handlers : Handlers) (env : RegistryEnv)
    (sceneId : String) (counter : Nat)
    (entitiesConfig : List (String × TargetState)) : ProvisionResult × Nat :=
  let byProtocol := classifySceneEntities env entitiesConfig
  let initMapping : GroupMapping :=
    { ha_entity_id := sceneId, ha_entity_type := GROUPING_TYPE_SCENE }
  let alloc := allocateSceneId counter
  (byProtocol.foldl (sceneFoldStep handlers sceneId alloc.1) ⟨initMapping, [], []⟩,
   alloc.2)

/-- Embeds `_provision_scene`: `entitiesConfig` is the scene state's per-entity
target-state dict (`none` when no scene config was found).  Missing or
empty config is a no-op. -/
def provisionScene (handlers : Handlers) (env : RegistryEnv) (st : OrchState)
    (sceneId : String) (entitiesConfig : Option (List (String × TargetState))) :
    OrchState × List BackendCall :=
  match entitiesConfig with
  | none => (st, [])
  | some cfg =>
    if cfg.isEmpty then (st, [])
    else
      let core := provisionSceneCore handlers env sceneId st.scene_id_counter cfg
      ({ st with
          scene_id_counter := core.2
          mappings := assocSet st.mappings sceneId core.1.mapping
          managed_resources :=
            core.1.resources.foldl (fun mr r => assocAddResource mr sceneId r)
              st.managed_resources },
       core.1.calls)

/-! ## Reconciliation (`_async_reconcile`) -/

/-- The set of group ids referenced by current mappings for one protocol:
`str(mapping.native_groups[protocol].group_id)` over all mappings.
(Scene-backing groups, recorded only in `native_scenes` and in the
managed-resources index, contribute nothing here.) -/
def managedGroupIds (mappings : List (String × GroupMapping)) (protocol : String) :
    List String :=
  mappings.filterMap fun m =>
    (alookup protocol m.2.native_groups).map fun ref => pyStr ref.group_id

/-- The orphan-deletion loop of `_async_reconcile` for one protocol:
`actualGroups` is the backend's `get_groups()` dict as `(str(group_id),
info["name"])` pairs; a group is deleted when its name starts with
`"ha_"` and its id is not among the managed ids. -/
def reconcileDeletes (mappings : List (String × GroupMapping)) (protocol : String)
    (actualGroups : List (String × String)) : List String :=
  (actualGroups.filter fun g =>
      pyStartsWith g.2 "ha_" && decide (g.1 ∉ managedGroupIds mappings protocol)).map
    (·.1)

/-! ## Cleanup (`_cleanup_resources`) and group update -/

/-- The per-resource branch of `_cleanup_resources`: parse
`protocol:group:<id>` or `protocol:scene:<group>:<scene_id>` and issue
the matching delete/remove call when the protocol has a handler. -/
def cleanupResourceCalls (handlers : Handlers) (resourceRef : String) : List BackendCall :=
  let parts := resourceRef.splitOn ":"
  let protocol := parts.getD 0 ""
  let resourceType := parts.getD 1 ""
  match handlers protocol with
  | none => []
  | some _ =>
    if resourceType = "group" then [.deleteGroup protocol (parts.getD 2 "")]
    else if resourceType = "scene" then
      [.removeScene protocol (parts.getD 2 "") ((parts.getD 3 "").toNat?.getD 0)]
    else []

/-- Embeds `_cleanup_resources`: pop the managed resources of a key and tear
each of them down.  The mapping table is untouched. -/
def cleanupResources (handlers : Handlers) (st : OrchState) (key : String) :
    OrchState × List BackendCall :=
  let resources := (alookup key st.managed_resources).getD []
  ({ st with managed_resources := assocErase st.managed_resources key },
   resources.flatMap (cleanupResourceCalls handlers))

/-- Embeds `_on_group_updated`: cleanup, then reprovision from the group's
current member list. -/
def onGroupUpdated (handlers : Handlers) (env : RegistryEnv) (st : OrchState)
    (groupId : String) (stateMembers : Option (List String)) :
    OrchState × List BackendCall :=
  let c := cleanupResources handlers st groupId
  let p := provisionGroup handlers env c.1 groupId stateMembers
  (p.1, c.2 ++ p.2)

/-! ## Dispatch routing (`async_dispatch`) -/

/-- A service-data target field: absent, a bare string, or a list
(`data.get(attr, [])` followed by the `isinstance(str)` wrap). -/
inductive TargetVal where
  | absent
  | one (s : String)
  | many (l : List String)
deriving DecidableEq, Repr

/-- Normalize a target field to a list of ids. -/
def TargetVal.toList : TargetVal → List String
  | .absent => []
  | .one s => [s]
  | .many l => l

/-- The four target fields `async_dispatch` reads from the service data. -/
structure DispatchData where
  entity_id : TargetVal := .absent
  area_id : TargetVal := .absent
  floor_id : TargetVal := .absent
  label_id : TargetVal := .absent
deriving DecidableEq, Repr

/-- Embeds `_dispatch_scene`: recall each protocol's native scene where a handler
is active, plus a raw per-entity service call for every ungrouped member. -/
def dispatchSceneCalls (handlers : Handlers) (m : GroupMapping)
    (domain service : String) : List BackendCall :=
  (m.native_scenes.flatMap fun ps =>
    match handlers ps.1 with
    | none => []
    | some _ => [.recallScene ps.1 ps.2.group_name ps.2.scene_id])
  ++ m.ungrouped_entities.map fun eid => .serviceCall domain service eid

/-- Embeds `_dispatch_group`: one native group command per protocol (or an
ad-hoc multicast when `group_id` is falsy), plus a raw per-entity service
call for every ungrouped member. -/
def dispatchGroupCalls (handlers : Handlers) (m : GroupMapping)
    (domain service : String) : List BackendCall :=
  (m.native_groups.flatMap fun pr =>
    match handlers pr.1 with
    | none => []
    | some _ =>
      if pyTruthy pr.2.group_id then
        [.sendGroupCommand pr.1 (pyStr pr.2.group_id) domain service]
      else
        [.sendMulticast pr.1 pr.2.member_native_ids domain service])
  ++ m.ungrouped_entities.map fun eid => .serviceCall domain service eid

/-- One of the four target loops of `async_dispatch`: for every id whose
mapped key is in the mapping table, enqueue the mapping's dispatch calls
and mark the request handled. -/
def targetFold (mappings : List (String × GroupMapping)) (toKey : String → String)
    (toCalls : GroupMapping → List BackendCall) (ids : List String)
    (acc : Bool × List BackendCall) : Bool × List BackendCall :=
  ids.foldl
    (fun a i =>
      match alookup (toKey i) mappings with
      | some m => (true, a.2 ++ toCalls m)
      | none => a)
    acc

/-- Embeds `async_dispatch`: route a service call to the native resources of
every targeted mapping; returns whether any target resolved to a live
mapping, together with the commands issued. -/
def asyncDispatch (handlers : Handlers) (mappings : List (String × GroupMapping))
    (domain service : String) (data : DispatchData) : Bool × List BackendCall :=
  let entityCalls := fun (m : GroupMapping) =>
    if m.ha_entity_type = GROUPING_TYPE_SCENE then
      dispatchSceneCalls handlers m domain service
    else
      dispatchGroupCalls handlers m domain service
  let groupCalls := fun (m : GroupMapping) => dispatchGroupCalls handlers m domain service
  let r1 := targetFold mappings id entityCalls data.entity_id.toList (false, [])
  let r2 := targetFold mappings (fun a => "area." ++ a) groupCalls data.area_id.toList r1
  let r3 := targetFold mappings (fun f => "floor." ++ f) groupCalls data.floor_id.toList r2
  targetFold mappings (fun l => "label." ++ l) groupCalls data.label_id.toList r3

/-! ## Specification helpers

Closed forms used to state and prove properties of the folds above. -/

/-- Merge a bucket already in the accumulator with the tail contribution
(`none` encodes an absent `defaultdict` bucket). -/
def olAppend {α : Type} : Option (List α) → List α → Option (List α)
  | none, [] => none
  | none, e :: es => some (e :: es)
  | some vs, es => some (vs ++ es)

/-- Last-error-wins accumulation of `sync_error` across the per-protocol
loop. -/
def foldErr (errs : List (Option String)) (e0 : Option String) : Option String :=
  errs.foldl
    (fun a oe =>
      match oe with
      | some e => some e
      | none => a)
    e0

/-- The protocol bucket `classify_entities` assigns to `p`: the
classification results of the entities classified to `p`, in input
order. -/
def bucketSpec (env : RegistryEnv) (entityIds : List String) (p : String) :
    List ProtocolInfo :=
  (entityIds.filter fun eid => decide ((classifyEntity env eid).protocol = p)).map
    (classifyEntity env)

/-- The protocol bucket `_provision_scene` assigns to `p`. -/
def sceneBucketSpec (env : RegistryEnv) (entitiesConfig : List (String × TargetState))
    (p : String) : List SceneEntity :=
  (entitiesConfig.filter fun et => decide ((classifyEntity env et.1).protocol = p)).map
    fun et => ⟨et.1, classifyEntity env et.1, et.2⟩

/-- Whether the protocol has an active handler that supports native
scenes (an absent handler never reaches the `supports_native_scenes`
check: its members fall back to `ungrouped_entities` directly). -/
def handlerSupportsScenes : Option Handler → Bool
  | none => false
  | some h => h.supportsNativeScenes

/-- Whether a store attempt succeeded. -/
def isOkE : Except String Unit → Bool
  | .ok _ => true
  | .error _ => false

/-! ## Concrete demonstration instances

A small household used for witnesses and counterexamples: one active
Z-Wave handler whose group operations succeed and return the group name
(as the concrete handlers do), and a registry with a few Z-Wave
entities. -/

def demoZwaveHandler : Handler :=
  { isZWaveJS := true
    createGroup := fun name _ => .ok name
    createCapabilityGroups := fun name _ => .ok name
    supportsNativeScenes := true
    storeScene := fun _ => .ok () }

def demoHandlers : Handlers := fun p =>
  if p = PROTOCOL_ZWAVE_JS then some demoZwaveHandler else none

def demoEnv : RegistryEnv := fun eid =>
  if eid = "light.sofa" then ⟨PROTOCOL_ZWAVE_JS, some "2", some ZWAVE_CAP_DIMMER⟩
  else if eid = "light.tv" then ⟨PROTOCOL_ZWAVE_JS, some "3", some ZWAVE_CAP_COLOR⟩
  else if eid = "switch.fan" then ⟨PROTOCOL_ZWAVE_JS, some "4", some ZWAVE_CAP_BINARY⟩
  else if eid = "light.solo" then ⟨PROTOCOL_ZWAVE_JS, some "5", some ZWAVE_CAP_DIMMER⟩
  else if eid = "climate.hvac" then ⟨PROTOCOL_ZWAVE_JS, some "6", none⟩
  else ⟨PROTOCOL_UNKNOWN, none, none⟩

/-- The result of provisioning the demo scene `scene.movie_night` with two
Z-Wave members (store succeeds on the first attempt). -/
def demoSceneResult : ProvisionResult × Nat :=
  provisionSceneCore demoHandlers demoEnv "scene.movie_night" SCENE_ID_START
    [("light.sofa", [("state", "on")]), ("light.tv", [("state", "on")])]

/-- The mapping recorded for the demo scene. -/
def demoSceneMapping : GroupMapping := demoSceneResult.1.mapping

/-- A demo state holding one previously provisioned group mapping and its
managed resource, used to exercise the membership-update path. -/
def demoOldMapping : GroupMapping :=
  (provisionEntityListCore demoHandlers demoEnv "group.den" GROUPING_TYPE_GROUP
      ["light.sofa", "light.tv"]).mapping

def demoState : OrchState :=
  { mappings := [("group.den", demoOldMapping)]
    managed_resources := [("group.den", ["zwave_js:group:ha_group_den_zwave_js"])]
    scene_id_counter := SCENE_ID_START }

/-- A store oracle whose first attempt times out and whose second
succeeds, used to exercise the retry loop. -/
def demoFlakyStore : Nat → Except String Unit := fun attempt =>
  if attempt = 0 then .error "timeout" else .ok ()

/-! ## Supporting lemmas -/

theorem alookup_mem {α : Type} {k : String} {v : α} :
    ∀ {l : List (String × α)}, alookup k l = some v → (k, v) ∈ l := by
  intro l
  induction l with
  | nil => simp [alookup]
  | cons hd tl ih =>
    cases hd with
    | mk k2 v2 =>
      simp only [alookup]
      split
      · rename_i heq
        intro h
        injection h with h2
        subst heq
        subst h2
        exact List.mem_cons_self _ _
      · intro h
        exact List.mem_cons_of_mem _ (ih h)

theorem alookup_eq_of_mem_nodup {α : Type} {k : String} {v : α} :
    ∀ {l : List (String × α)}, (k, v) ∈ l → (l.map Prod.fst).Nodup →
      alookup k l = some v := by
  intro l
  induction l with
  | nil => intro hmem _; cases hmem
  | cons hd tl ih =>
    intro hmem hnd
    cases hd with
    | mk k2 v2 =>
      simp only [List.map_cons, List.nodup_cons] at hnd
      rcases List.mem_cons.mp hmem with heq | hmem2
      · injection heq with h1 h2
        subst h1
        subst h2
        simp [alookup]
      · have hk : k ≠ k2 := by
          intro h
          subst h
          exact hnd.1 (List.mem_map.mpr ⟨(k, v), hmem2, rfl⟩)
        simp [alookup, hk, ih hmem2 hnd.2]

theorem alookup_assocAppend {α : Type} (k : String) (v : α) (p : String) :
    ∀ (acc : List (String × List α)),
      alookup p (assocAppend acc k v) =
        if p = k then some ((alookup p acc).getD [] ++ [v]) else alookup p acc := by
  intro acc
  induction acc with
  | nil =>
    by_cases h : p = k <;> simp [assocAppend, alookup, h]
  | cons hd tl ih =>
    cases hd with
    | mk k2 vs =>
      by_cases hk : k2 = k
      · subst hk
        by_cases hp : p = k2 <;> simp [assocAppend, alookup, hp]
      · by_cases hp : p = k2
        · subst hp
          simp [assocAppend, hk, alookup, hk]
        · simp [assocAppend, hk, alookup, hp, ih]

theorem keys_assocAppend {α : Type} (k : String) (v : α) :
    ∀ (acc : List (String × List α)),
      (assocAppend acc k v).map Prod.fst =
        if k ∈ acc.map Prod.fst then acc.map Prod.fst else acc.map Prod.fst ++ [k] := by
  intro acc
  induction acc with
  | nil => simp [assocAppend]
  | cons hd tl ih =>
    cases hd with
    | mk k2 vs =>
      by_cases hk : k2 = k
      · subst hk
        simp [assocAppend]
      · have hkk : ¬ k = k2 := fun h => hk h.symm
        simp only [assocAppend, if_neg hk, List.map_cons, ih]
        by_cases hmem : k ∈ tl.map Prod.fst
        · simp [hmem, List.mem_cons, hkk]
        · simp [hmem, List.mem_cons, hkk]

theorem nodup_keys_assocAppend {α : Type} {acc : List (String × List α)}
    (h : (acc.map Prod.fst).Nodup) (k : String) (v : α) :
    ((assocAppend acc k v).map Prod.fst).Nodup := by
  rw [keys_assocAppend]
  split
  · exact h
  · rename_i hk
    refine List.Nodup.append h (List.nodup_singleton _) ?_
    intro a ha hb
    simp only [List.mem_singleton] at hb
    subst hb
    exact hk ha

theorem olAppend_nil {α : Type} (o : Option (List α)) : olAppend o [] = o := by
  cases o <;> simp [olAppend]

theorem olAppend_cons {α : Type} (o : Option (List α)) (e : α) (es : List α) :
    olAppend o (e :: es) = some (o.getD [] ++ e :: es) := by
  cases o <;> simp [olAppend]

theorem olAppend_some {α : Type} (vs es : List α) :
    olAppend (some vs) es = some (vs ++ es) := rfl

theorem alookup_foldl_assocAppend {ι β : Type} (key : ι → String) (val : ι → β) :
    ∀ (l : List ι) (acc : List (String × List β)) (p : String),
      alookup p (l.foldl (fun a x => assocAppend a (key x) (val x)) acc) =
        olAppend (alookup p acc) ((l.filter fun x => decide (key x = p)).map val) := by
  intro l
  induction l with
  | nil =>
    intro acc p
    simp [olAppend_nil]
  | cons x t ih =>
    intro acc p
    rw [List.foldl_cons, ih, alookup_assocAppend]
    by_cases hp : p = key x
    · have hx : key x = p := hp.symm
      rw [if_pos hp]
      have hfilter : List.filter (fun y => decide (key y = p)) (x :: t) =
          x :: List.filter (fun y => decide (key y = p)) t := by
        simp [List.filter_cons, hx]
      rw [hfilter, List.map_cons, olAppend_cons, olAppend_some]
      cases halook : alookup p acc <;> simp [List.append_assoc]
    · have hx : ¬ key x = p := fun h => hp h.symm
      rw [if_neg hp]
      have hfilter : List.filter (fun y => decide (key y = p)) (x :: t) =
          List.filter (fun y => decide (key y = p)) t := by
        simp [List.filter_cons, hx]
      rw [hfilter]

theorem nodup_keys_foldl_assocAppend {ι β : Type} (key : ι → String) (val : ι → β) :
    ∀ (l : List ι) (acc : List (String × List β)),
      ((acc.map Prod.fst).Nodup) →
        (((l.foldl (fun a x => assocAppend a (key x) (val x)) acc).map Prod.fst)).Nodup := by
  intro l
  induction l with
  | nil => intro acc h; exact h
  | cons x t ih =>
    intro acc h
    rw [List.foldl_cons]
    exact ih _ (nodup_keys_assocAppend h _ _)

/-- Closed form for one bucket of `classify_entities`. -/
theorem classifyEntities_alookup (env : RegistryEnv) (l : List String) (p : String) :
    alookup p (classifyEntities env l) = olAppend none (bucketSpec env l p) := by
  have h := alookup_foldl_assocAppend
    (fun eid => (classifyEntity env eid).protocol) (classifyEntity env) l [] p
  simpa [classifyEntities, bucketSpec, alookup] using h

theorem classifyEntities_alookup_some {env : RegistryEnv} {l : List String} {p : String}
    {es : List ProtocolInfo} (h : alookup p (classifyEntities env l) = some es) :
    es = bucketSpec env l p := by
  rw [classifyEntities_alookup] at h
  cases hb : bucketSpec env l p with
  | nil => rw [hb] at h; simp [olAppend] at h
  | cons e t =>
    rw [hb] at h
    simp [olAppend] at h
    exact h.symm

theorem classifyEntities_keys_nodup (env : RegistryEnv) (l : List String) :
    ((classifyEntities env l).map Prod.fst).Nodup := by
  have h := nodup_keys_foldl_assocAppend
    (fun eid => (classifyEntity env eid).protocol) (classifyEntity env) l [] (by simp)
  simpa [classifyEntities] using h

/-- Closed form for one bucket of the scene classification loop. -/
theorem classifySceneEntities_alookup (env : RegistryEnv)
    (cfg : List (String × TargetState)) (p : String) :
    alookup p (classifySceneEntities env cfg) = olAppend none (sceneBucketSpec env cfg p) := by
  have h := alookup_foldl_assocAppend
    (fun (et : String × TargetState) => (classifyEntity env et.1).protocol)
    (fun et => (⟨et.1, classifyEntity env et.1, et.2⟩ : SceneEntity)) cfg [] p
  simpa [classifySceneEntities, sceneBucketSpec, alookup] using h

theorem classifySceneEntities_alookup_some {env : RegistryEnv}
    {cfg : List (String × TargetState)} {p : String} {es : List SceneEntity}
    (h : alookup p (classifySceneEntities env cfg) = some es) :
    es = sceneBucketSpec env cfg p := by
  rw [classifySceneEntities_alookup] at h
  cases hb : sceneBucketSpec env cfg p with
  | nil => rw [hb] at h; simp [olAppend] at h
  | cons e t =>
    rw [hb] at h
    simp [olAppend] at h
    exact h.symm

theorem classifySceneEntities_keys_nodup (env : RegistryEnv)
    (cfg : List (String × TargetState)) :
    ((classifySceneEntities env cfg).map Prod.fst).Nodup := by
  have h := nodup_keys_foldl_assocAppend
    (fun (et : String × TargetState) => (classifyEntity env et.1).protocol)
    (fun et => (⟨et.1, classifyEntity env et.1, et.2⟩ : SceneEntity)) cfg [] (by simp)
  simpa [classifySceneEntities] using h

theorem alookup_filterMap_not_mem {γ β : Type} (g : String → γ → Option β) (q : String) :
    ∀ (bs : List (String × γ)), q ∉ bs.map Prod.fst →
      alookup q (bs.filterMap fun b => (g b.1 b.2).map fun y => (b.1, y)) = none := by
  intro bs
  induction bs with
  | nil => intro _; simp [alookup]
  | cons hd tl ih =>
    intro h
    simp only [List.map_cons, List.mem_cons] at h
    push_neg at h
    rw [List.filterMap_cons]
    cases hg : (g hd.1 hd.2).map fun y => (hd.1, y) with
    | none => exact ih h.2
    | some b =>
      rcases Option.map_eq_some'.mp hg with ⟨y, _, hy⟩
      subst hy
      simp only [alookup, if_neg h.1]
      exact ih h.2

/-- Looking up a key in the tagged `filterMap` of a nodup-keyed bucket
list evaluates the bucket of that key. -/
theorem alookup_filterMap_keyed {γ β : Type} (g : String → γ → Option β) :
    ∀ (bs : List (String × γ)) (q : String), (bs.map Prod.fst).Nodup →
      alookup q (bs.filterMap fun b => (g b.1 b.2).map fun y => (b.1, y)) =
        (alookup q bs).bind (g q) := by
  intro bs
  induction bs with
  | nil => intro q _; simp [alookup]
  | cons hd tl ih =>
    intro q hnd
    cases hd with
    | mk k c =>
      simp only [List.map_cons, List.nodup_cons] at hnd
      rw [List.filterMap_cons]
      by_cases hq : q = k
      · subst hq
        cases hgc : g q c with
        | some y =>
          simp [alookup, hgc]
        | none =>
          simp only [hgc, Option.map_none']
          rw [alookup_filterMap_not_mem g q tl hnd.1]
          simp [alookup, hgc]
      · cases hgc : g k c with
        | some y =>
          simp only [hgc, Option.map_some']
          simp only [alookup, if_neg hq]
          exact ih q hnd.2
        | none =>
          simp only [hgc, Option.map_none']
          rw [ih q hnd.2]
          simp [alookup, hq]

/-- Closed form of the per-protocol fold of `_provision_entity_list`:
`native_groups` collects the per-bucket entries, `ungrouped_entities`,
`resources` and `calls` concatenate the per-bucket contributions, and
`sync_error` is the last error raised. -/
theorem provisionFold_closed (handlers : Handlers) (key : String) :
    ∀ (bs : List (String × List ProtocolInfo)) (acc : ProvisionResult),
      bs.foldl (provisionFoldStep handlers key) acc =
        { mapping :=
            { acc.mapping with
              native_groups := acc.mapping.native_groups ++
                bs.filterMap fun b =>
                  ((bucketOutcome handlers key b.1 b.2).entry).map fun r => (b.1, r)
              ungrouped_entities := acc.mapping.ungrouped_entities ++
                bs.flatMap fun b => (bucketOutcome handlers key b.1 b.2).ungrouped
              sync_error :=
                foldErr (bs.map fun b => (bucketOutcome handlers key b.1 b.2).err)
                  acc.mapping.sync_error }
          resources := acc.resources ++
            bs.flatMap fun b => (bucketOutcome handlers key b.1 b.2).resources
          calls := acc.calls ++
            bs.flatMap fun b => (bucketOutcome handlers key b.1 b.2).calls } := by
  intro bs
  induction bs with
  | nil =>
    intro acc
    simp [foldErr]
  | cons b bs ih =>
    intro acc
    rw [List.foldl_cons, ih]
    cases hE : (bucketOutcome handlers key b.1 b.2).entry <;>
      cases hErr : (bucketOutcome handlers key b.1 b.2).err <;>
        simp [provisionFoldStep, hE, hErr, List.filterMap_cons, foldErr,
          List.append_assoc]

/-- Closed form of the per-protocol fold of `_provision_scene`. -/
theorem sceneFold_closed (handlers : Handlers) (sceneId : String) (nsid : Nat) :
    ∀ (bs : List (String × List SceneEntity)) (acc : ProvisionResult),
      bs.foldl (sceneFoldStep handlers sceneId nsid) acc =
        { mapping :=
            { acc.mapping with
              native_scenes := acc.mapping.native_scenes ++
                bs.filterMap fun b =>
                  ((sceneBucketOutcome handlers sceneId nsid b.1 b.2).entry).map fun r =>
                    (b.1, r)
              ungrouped_entities := acc.mapping.ungrouped_entities ++
                bs.flatMap fun b => (sceneBucketOutcome handlers sceneId nsid b.1 b.2).ungrouped
              sync_error :=
                foldErr (bs.map fun b => (sceneBucketOutcome handlers sceneId nsid b.1 b.2).err)
                  acc.mapping.sync_error }
          resources := acc.resources ++
            bs.flatMap fun b => (sceneBucketOutcome handlers sceneId nsid b.1 b.2).resources
          calls := acc.calls ++
            bs.flatMap fun b => (sceneBucketOutcome handlers sceneId nsid b.1 b.2).calls } := by
  intro bs
  induction bs with
  | nil =>
    intro acc
    simp [foldErr]
  | cons b bs ih =>
    intro acc
    rw [List.foldl_cons, ih]
    cases hE : (sceneBucketOutcome handlers sceneId nsid b.1 b.2).entry <;>
      cases hErr : (sceneBucketOutcome handlers sceneId nsid b.1 b.2).err <;>
        simp [sceneFoldStep, hE, hErr, List.filterMap_cons, foldErr,
          List.append_assoc]

/-- Closed form of `provisionEntityListCore`. -/
theorem provisionEntityListCore_eq (handlers : Handlers) (env : RegistryEnv)
    (key ty : String) (l : List String) :
    provisionEntityListCore handlers env key ty l =
      { mapping :=
          { ha_entity_id := key, ha_entity_type := ty
            native_groups := (classifyEntities env l).filterMap fun b =>
              ((bucketOutcome handlers key b.1 b.2).entry).map fun r => (b.1, r)
            native_scenes := []
            ungrouped_entities := (classifyEntities env l).flatMap fun b =>
              (bucketOutcome handlers key b.1 b.2).ungrouped
            last_synced := 0
            sync_error := foldErr ((classifyEntities env l).map fun b =>
              (bucketOutcome handlers key b.1 b.2).err) none }
        resources := (classifyEntities env l).flatMap fun b =>
          (bucketOutcome handlers key b.1 b.2).resources
        calls := (classifyEntities env l).flatMap fun b =>
          (bucketOutcome handlers key b.1 b.2).calls } := by
  have h := provisionFold_closed handlers key (classifyEntities env l)
    ⟨{ ha_entity_id := key, ha_entity_type := ty }, [], []⟩
  simpa [provisionEntityListCore] using h

/-- Closed form of `provisionSceneCore`. -/
theorem provisionSceneCore_eq (handlers : Handlers) (env : RegistryEnv)
    (sid : String) (counter : Nat) (cfg : List (String × TargetState)) :
    provisionSceneCore handlers env sid counter cfg =
      ({ mapping :=
          { ha_entity_id := sid, ha_entity_type := GROUPING_TYPE_SCENE
            native_groups := []
            native_scenes := (classifySceneEntities env cfg).filterMap fun b =>
              ((sceneBucketOutcome handlers sid (allocateSceneId counter).1 b.1
                  b.2).entry).map fun r => (b.1, r)
            ungrouped_entities := (classifySceneEntities env cfg).flatMap fun b =>
              (sceneBucketOutcome handlers sid (allocateSceneId counter).1 b.1 b.2).ungrouped
            last_synced := 0
            sync_error := foldErr ((classifySceneEntities env cfg).map fun b =>
              (sceneBucketOutcome handlers sid (allocateSceneId counter).1 b.1 b.2).err)
              none }
         resources := (classifySceneEntities env cfg).flatMap fun b =>
           (sceneBucketOutcome handlers sid (allocateSceneId counter).1 b.1 b.2).resources
         calls := (classifySceneEntities env cfg).flatMap fun b =>
           (sceneBucketOutcome handlers sid (allocateSceneId counter).1 b.1 b.2).calls },
       (allocateSceneId counter).2) := by
  have h := sceneFold_closed handlers sid (allocateSceneId counter).1
    (classifySceneEntities env cfg)
    ⟨{ ha_entity_id := sid, ha_entity_type := GROUPING_TYPE_SCENE }, [], []⟩
  simp [provisionSceneCore, h]

theorem bucketAttempt_not_multi {handler : Handler} {p g : String}
    {entities : List ProtocolInfo} (h : ¬ entities.length > 1) :
    bucketAttempt handler p g entities = (.ok (none, []), []) := by
  simp [bucketAttempt, h]

theorem bucketAttempt_ok_multi_isSome {handler : Handler} {p g : String}
    {entities : List ProtocolInfo} {gid : Option String} {ung : List String}
    (hlen : entities.length > 1)
    (hok : (bucketAttempt handler p g entities).1 = .ok (gid, ung)) :
    gid.isSome = true := by
  unfold bucketAttempt at hok
  by_cases hz : p = PROTOCOL_ZWAVE_JS ∧ entities.length > 1
  · rw [if_pos hz] at hok
    cases hcz : (createZwaveCapabilityGroups handler p g entities).1 with
    | ok v =>
      simp [hcz, Except.map] at hok
      rw [← hok.1]
      rfl
    | error e =>
      simp [hcz, Except.map] at hok
  · rw [if_neg hz, if_pos hlen] at hok
    cases hc : handler.createGroup g (entities.map (·.native_id)) with
    | ok v =>
      simp [hc, Except.map] at hok
      rw [← hok.1]
      rfl
    | error e =>
      simp [hc, Except.map] at hok

theorem createZwave_ok_ungrouped {handler : Handler} {p g : String}
    {entities : List ProtocolInfo} {gid : String} {ung : List String}
    (hok : (createZwaveCapabilityGroups handler p g entities).1 = .ok (gid, ung)) :
    ung = [] ∨
      ung = (entities.filter fun e => decide (e.capability = none)).map (·.entity_id) := by
  unfold createZwaveCapabilityGroups at hok
  split at hok
  · cases hc : handler.createGroup g (entities.map (·.native_id)) with
    | ok v => simp [hc, Except.map] at hok; exact Or.inl hok.2
    | error e => simp [hc, Except.map] at hok
  · cases hc : handler.createCapabilityGroups g
        [(ZWAVE_CAP_BINARY, capabilityMembers ZWAVE_CAP_BINARY entities),
         (ZWAVE_CAP_DIMMER, capabilityMembers ZWAVE_CAP_DIMMER entities),
         (ZWAVE_CAP_COLOR, capabilityMembers ZWAVE_CAP_COLOR entities)] with
    | ok v => simp [hc, Except.map] at hok; exact Or.inr hok.2.symm
    | error e => simp [hc, Except.map] at hok

theorem bucketAttempt_ok_ungrouped {handler : Handler} {p g : String}
    {entities : List ProtocolInfo} {gid : Option String} {ung : List String}
    (hok : (bucketAttempt handler p g entities).1 = .ok (gid, ung)) :
    ung = [] ∨
      ung = (entities.filter fun e => decide (e.capability = none)).map (·.entity_id) := by
  unfold bucketAttempt at hok
  split at hok
  · cases hcz : (createZwaveCapabilityGroups handler p g entities).1 with
    | ok v =>
      simp [hcz, Except.map] at hok
      have hz := @createZwave_ok_ungrouped handler p g entities v.1 v.2 (by rw [hcz])
      rw [← hok.2]
      exact hz
    | error e =>
      simp [hcz, Except.map] at hok
  · split at hok
    · cases hc : handler.createGroup g (entities.map (·.native_id)) with
      | ok v => simp [hc, Except.map] at hok; exact Or.inl hok.2
      | error e => simp [hc, Except.map] at hok
    · injection hok with h2
      injection h2 with h3 h4
      exact Or.inl h4.symm

theorem bucketAttempt_calls_protocol {handler : Handler} {p g : String}
    {entities : List ProtocolInfo} :
    ∀ c ∈ (bucketAttempt handler p g entities).2, c.protocolOf = some p := by
  unfold bucketAttempt
  split
  · unfold createZwaveCapabilityGroups
    split <;> intro c hc <;> simp at hc <;> subst hc <;> rfl
  · split
    · intro c hc; simp at hc; subst hc; rfl
    · intro c hc; simp at hc

/-- Exhaustive case analysis of one iteration of the per-protocol loop of
`_provision_entity_list`. -/
theorem bucketOutcome_cases (handlers : Handlers) (key p : String)
    (entities : List ProtocolInfo) :
    (handlers p = none ∧ bucketOutcome handlers key p entities =
        ⟨none, entities.map (·.entity_id), none, [], []⟩) ∨
    (∃ handler, handlers p = some handler ∧ entities.isEmpty = true ∧
      bucketOutcome handlers key p entities =
        ⟨none, entities.map (·.entity_id), none, [], []⟩) ∨
    (∃ handler e2, handlers p = some handler ∧ entities.isEmpty = false ∧
      (bucketAttempt handler p (generateGroupName key p) entities).1 = .error e2 ∧
      bucketOutcome handlers key p entities =
        ⟨none, [], some e2, [],
         (bucketAttempt handler p (generateGroupName key p) entities).2⟩) ∨
    (∃ handler gid ung, handlers p = some handler ∧ entities.isEmpty = false ∧
      (bucketAttempt handler p (generateGroupName key p) entities).1 = .ok (gid, ung) ∧
      bucketOutcome handlers key p entities =
        ⟨some
            { protocol := p
              group_id := gid
              group_name := generateGroupName key p
              member_entity_ids :=
                (entities.filter fun e => decide (e.entity_id ∉ ung)).map (·.entity_id)
              member_native_ids :=
                (entities.filter fun e => decide (e.entity_id ∉ ung)).map (·.native_id) },
         ung, none,
         (if pyTruthy gid then [p ++ ":group:" ++ pyStr gid] else []),
         (bucketAttempt handler p (generateGroupName key p) entities).2⟩) := by
  cases hh : handlers p with
  | none =>
    exact Or.inl ⟨rfl, by simp [bucketOutcome, hh]⟩
  | some handler =>
    cases he : entities.isEmpty with
    | true =>
      exact Or.inr (Or.inl ⟨handler, rfl, rfl, by simp [bucketOutcome, hh, he]⟩)
    | false =>
      cases hA : (bucketAttempt handler p (generateGroupName key p) entities).1 with
      | error e2 =>
        exact Or.inr (Or.inr (Or.inl ⟨handler, e2, rfl, rfl, hA,
          by simp [bucketOutcome, hh, he, hA]⟩))
      | ok v =>
        obtain ⟨gid, ung⟩ := v
        exact Or.inr (Or.inr (Or.inr ⟨handler, gid, ung, rfl, rfl, hA,
          by simp [bucketOutcome, hh, he, hA]⟩))

/-- Singleton bucket with an active handler: record the member directly,
no backend call, no managed resource, `group_id = None`. -/
theorem bucketOutcome_single (handlers : Handlers) (key p : String) (handler : Handler)
    (hh : handlers p = some handler) (e : ProtocolInfo) :
    bucketOutcome handlers key p [e] =
      ⟨some
          { protocol := p
            group_id := none
            group_name := generateGroupName key p
            member_entity_ids := [e.entity_id]
            member_native_ids := [e.native_id] },
       [], none, [], []⟩ := by
  have hA : bucketAttempt handler p (generateGroupName key p) [e] = (.ok (none, []), []) :=
    bucketAttempt_not_multi (by simp)
  simp [bucketOutcome, hh, hA, pyTruthy, List.filter]

/-- Every entity diverted to `ungrouped_entities` by a bucket comes from
that bucket. -/
theorem bucketOutcome_ungrouped_sub {handlers : Handlers} {key p : String}
    {entities : List ProtocolInfo} :
    ∀ x ∈ (bucketOutcome handlers key p entities).ungrouped,
      ∃ i ∈ entities, i.entity_id = x := by
  intro x hx
  rcases bucketOutcome_cases handlers key p entities with
    ⟨_, hout⟩ | ⟨handler, _, _, hout⟩ | ⟨handler, e2, _, _, _, hout⟩ |
    ⟨handler, gid, ung, _, _, hA, hout⟩
  · rw [hout] at hx
    rcases List.mem_map.mp hx with ⟨i, hi, rfl⟩
    exact ⟨i, hi, rfl⟩
  · rw [hout] at hx
    rcases List.mem_map.mp hx with ⟨i, hi, rfl⟩
    exact ⟨i, hi, rfl⟩
  · rw [hout] at hx
    cases hx
  · rw [hout] at hx
    rcases bucketAttempt_ok_ungrouped hA with h | h
    · rw [h] at hx; cases hx
    · rw [h] at hx
      rcases List.mem_map.mp hx with ⟨i, hi, rfl⟩
      exact ⟨i, (List.mem_filter.mp hi).1, rfl⟩

/-- Every backend call issued by a bucket is addressed to that bucket's
protocol. -/
theorem bucketOutcome_calls_protocol {handlers : Handlers} {key p : String}
    {entities : List ProtocolInfo} :
    ∀ c ∈ (bucketOutcome handlers key p entities).calls, c.protocolOf = some p := by
  intro c hc
  rcases bucketOutcome_cases handlers key p entities with
    ⟨_, hout⟩ | ⟨handler, _, _, hout⟩ | ⟨handler, e2, _, _, _, hout⟩ |
    ⟨handler, gid, ung, _, _, hA, hout⟩
  · rw [hout] at hc; cases hc
  · rw [hout] at hc; cases hc
  · rw [hout] at hc; exact bucketAttempt_calls_protocol c hc
  · rw [hout] at hc; exact bucketAttempt_calls_protocol c hc

/-- A recorded `NativeGroupRef` whose member list contains `x` never has
`x` among the bucket's ungrouped leftovers, and its members come from the
bucket. -/
theorem bucketOutcome_entry_members {handlers : Handlers} {key p : String}
    {entities : List ProtocolInfo} {r : NativeGroupRef}
    (h : (bucketOutcome handlers key p entities).entry = some r) :
    ∀ x ∈ r.member_entity_ids,
      (∃ i ∈ entities, i.entity_id = x) ∧
        x ∉ (bucketOutcome handlers key p entities).ungrouped := by
  intro x hx
  rcases bucketOutcome_cases handlers key p entities with
    ⟨_, hout⟩ | ⟨handler, _, _, hout⟩ | ⟨handler, e2, _, _, _, hout⟩ |
    ⟨handler, gid, ung, _, _, hA, hout⟩
  · rw [hout] at h; cases h
  · rw [hout] at h; cases h
  · rw [hout] at h; cases h
  · rw [hout] at h
    injection h with h2
    subst h2
    simp only at hx
    rcases List.mem_map.mp hx with ⟨i, hi, rfl⟩
    have hfil := List.mem_filter.mp hi
    refine ⟨⟨i, hfil.1, rfl⟩, ?_⟩
    rw [hout]
    exact of_decide_eq_true hfil.2

/-- A recorded `NativeGroupRef` for a bucket of more than one member has
a populated `group_id`. -/
theorem bucketOutcome_entry_isSome {handlers : Handlers} {key p : String}
    {entities : List ProtocolInfo} {r : NativeGroupRef}
    (hlen : entities.length > 1)
    (h : (bucketOutcome handlers key p entities).entry = some r) :
    r.group_id.isSome = true := by
  rcases bucketOutcome_cases handlers key p entities with
    ⟨_, hout⟩ | ⟨handler, _, _, hout⟩ | ⟨handler, e2, _, _, _, hout⟩ |
    ⟨handler, gid, ung, _, _, hA, hout⟩
  · rw [hout] at h; cases h
  · rw [hout] at h; cases h
  · rw [hout] at h; cases h
  · rw [hout] at h
    injection h with h2
    subst h2
    exact bucketAttempt_ok_multi_isSome hlen hA

/-! Scene bucket case analysis. -/

theorem sceneBucketOutcome_cases (handlers : Handlers) (sid : String) (nsid : Nat)
    (p : String) (es : List SceneEntity) :
    (sceneBucketOutcome handlers sid nsid p es = ⟨none, es.map (·.entity_id), none, [], []⟩) ∨
    (∃ handler, handlers p = some handler ∧ handler.supportsNativeScenes = true ∧
      es.length > 1 ∧
      sceneBucketOutcome handlers sid nsid p es =
        provisionNativeSceneModel handler p sid nsid es) := by
  cases hh : handlers p with
  | none => exact Or.inl (by simp [sceneBucketOutcome, hh])
  | some handler =>
    cases he : es.isEmpty with
    | true => exact Or.inl (by simp [sceneBucketOutcome, hh, he])
    | false =>
      by_cases hcond : handler.supportsNativeScenes ∧ es.length > 1
      · exact Or.inr ⟨handler, rfl, by simp [hcond.1], hcond.2,
          by simp [sceneBucketOutcome, hh, he, hcond]⟩
      · exact Or.inl (by simp [sceneBucketOutcome, hh, he, hcond])

theorem provisionNativeSceneModel_ungrouped (handler : Handler) (p sid : String)
    (nsid : Nat) (es : List SceneEntity) :
    (provisionNativeSceneModel handler p sid nsid es).ungrouped = [] := by
  cases hc : handler.createGroup (generateGroupName sid p) (es.map (·.info.native_id)) with
  | error e => simp [provisionNativeSceneModel, hc]
  | ok gid =>
    cases hr : (sceneStoreRetry handler.storeScene p (generateGroupName sid p) nsid).2 with
    | ok u => simp [provisionNativeSceneModel, hc, hr]
    | error e => simp [provisionNativeSceneModel, hc, hr]

theorem provisionNativeSceneModel_entry {handler : Handler} {p sid : String}
    {nsid : Nat} {es : List SceneEntity} {r : NativeSceneRef}
    (h : (provisionNativeSceneModel handler p sid nsid es).entry = some r) :
    r = { protocol := p, group_name := generateGroupName sid p, scene_id := nsid,
          member_entity_ids := es.map (·.entity_id) } := by
  cases hc : handler.createGroup (generateGroupName sid p) (es.map (·.info.native_id)) with
  | error e => simp [provisionNativeSceneModel, hc] at h
  | ok gid =>
    cases hr : (sceneStoreRetry handler.storeScene p (generateGroupName sid p) nsid).2 with
    | ok u =>
      simp only [provisionNativeSceneModel, hc, hr, Option.some.injEq] at h
      exact h.symm
    | error e =>
      simp [provisionNativeSceneModel, hc, hr] at h

theorem sceneBucketOutcome_congr {handlers handlers2 : Handlers} {sid : String}
    {nsid : Nat} {q : String} {es : List SceneEntity} (h : handlers q = handlers2 q) :
    sceneBucketOutcome handlers sid nsid q es = sceneBucketOutcome handlers2 sid nsid q es := by
  unfold sceneBucketOutcome
  rw [h]

/-! Retry loop characterization. -/

theorem sceneStoreRetry_first_ok {store : Nat → Except String Unit} {p g : String}
    {sid : Nat} (h0 : store 0 = .ok ()) :
    sceneStoreRetry store p g sid = ([.storeScene p g sid 0], .ok ()) := by
  simp [sceneStoreRetry, sceneStoreRetryGo, h0]

theorem sceneStoreRetry_second_ok {store : Nat → Except String Unit} {p g : String}
    {sid : Nat} {e0 : String} (h0 : store 0 = .error e0) (h1 : store 1 = .ok ()) :
    sceneStoreRetry store p g sid =
      ([.storeScene p g sid 0, .sleep (1 / 2), .storeScene p g sid 1], .ok ()) := by
  simp [sceneStoreRetry, sceneStoreRetryGo, h0, h1]

theorem sceneStoreRetry_third_ok {store : Nat → Except String Unit} {p g : String}
    {sid : Nat} {e0 e1 : String} (h0 : store 0 = .error e0) (h1 : store 1 = .error e1)
    (h2 : store 2 = .ok ()) :
    sceneStoreRetry store p g sid =
      ([.storeScene p g sid 0, .sleep (1 / 2), .storeScene p g sid 1, .sleep 1,
        .storeScene p g sid 2], .ok ()) := by
  simp [sceneStoreRetry, sceneStoreRetryGo, h0, h1, h2]
  norm_num

theorem sceneStoreRetry_all_fail {store : Nat → Except String Unit} {p g : String}
    {sid : Nat} {e0 e1 e2 : String} (h0 : store 0 = .error e0)
    (h1 : store 1 = .error e1) (h2 : store 2 = .error e2) :
    sceneStoreRetry store p g sid =
      ([.storeScene p g sid 0, .sleep (1 / 2), .storeScene p g sid 1, .sleep 1,
        .storeScene p g sid 2], .error e2) := by
  simp [sceneStoreRetry, sceneStoreRetryGo, h0, h1, h2]
  norm_num

/-- The handled flag of one target loop: previously handled, or any id of
this loop resolves to a live mapping. -/
theorem targetFold_handled (mappings : List (String × GroupMapping))
    (toKey : String → String) (toCalls : GroupMapping → List BackendCall) :
    ∀ (ids : List String) (acc : Bool × List BackendCall),
      (targetFold mappings toKey toCalls ids acc).1 =
        (acc.1 || ids.any fun i => (alookup (toKey i) mappings).isSome) := by
  intro ids
  induction ids with
  | nil => intro acc; simp [targetFold]
  | cons i t ih =>
    intro acc
    have hstep : targetFold mappings toKey toCalls (i :: t) acc =
        targetFold mappings toKey toCalls t
          (match alookup (toKey i) mappings with
           | some m => (true, acc.2 ++ toCalls m)
           | none => acc) := rfl
    rw [hstep]
    cases h : alookup (toKey i) mappings with
    | some m => simp [h, ih, List.any_cons]
    | none => simp [h, ih, List.any_cons]

/-- A target loop none of whose ids resolves issues no calls. -/
theorem targetFold_calls_unhandled (mappings : List (String × GroupMapping))
    (toKey : String → String) (toCalls : GroupMapping → List BackendCall) :
    ∀ (ids : List String) (acc : Bool × List BackendCall),
      (∀ i ∈ ids, alookup (toKey i) mappings = none) →
      (targetFold mappings toKey toCalls ids acc).2 = acc.2 := by
  intro ids
  induction ids with
  | nil => intro acc _; rfl
  | cons i t ih =>
    intro acc h
    have hi := h i (List.mem_cons_self i t)
    have hstep : targetFold mappings toKey toCalls (i :: t) acc =
        targetFold mappings toKey toCalls t acc := by
      have : targetFold mappings toKey toCalls (i :: t) acc =
          targetFold mappings toKey toCalls t
            (match alookup (toKey i) mappings with
             | some m => (true, acc.2 ++ toCalls m)
             | none => acc) := rfl
      rw [this, hi]
    rw [hstep]
    exact ih acc fun j hj => h j (List.mem_cons_of_mem _ hj)

/-! ## Claim theorems -/

/-- C5: serialization round-trips every persisted field of a
`GroupMapping` (`from_dict (to_dict m) = m` for every mapping, in
particular every mapping built by the provisioning pipeline), and
`from_dict` defaults missing optional keys: `ungrouped_entities` and the
`native_groups`/`native_scenes` tables to empty, `sync_error` to `None`
(and `last_synced` to `0`). -/
theorem groupMapping_roundtrip_and_defaults :
    (∀ m : GroupMapping, GroupMapping.from_dict (GroupMapping.to_dict m) = m) ∧
    (∀ i t : String,
      GroupMapping.from_dict { ha_entity_id := i, ha_entity_type := t } =
        { ha_entity_id := i, ha_entity_type := t, native_groups := []
          native_scenes := [], ungrouped_entities := [], last_synced := 0
          sync_error := none }) :=
  ⟨fun _ => rfl, fun _ _ => rfl⟩

/-- C9: the allocator returns the current counter and then increments it,
wrapping to `SCENE_ID_START` when the counter exceeds `SCENE_ID_MAX`;
starting fresh at `SCENE_ID_START`, allocating
`SCENE_ID_MAX - SCENE_ID_START + 2` ids yields `START, START+1, …, MAX`
followed by `START` again — every id lies in `[START, MAX]` and the
sequence returns to `START` exactly once (the value `START` occurs
exactly twice: at the start and after the single wrap). -/
theorem scene_id_allocator_wrap :
    (∀ c : Nat, (allocateSceneId c).1 = c ∧
      (allocateSceneId c).2 = if c + 1 > SCENE_ID_MAX then SCENE_ID_START else c + 1) ∧
    allocSeq (SCENE_ID_MAX - SCENE_ID_START + 2) SCENE_ID_START =
      (List.range (SCENE_ID_MAX - SCENE_ID_START + 1)).map (fun k => SCENE_ID_START + k)
        ++ [SCENE_ID_START] ∧
    (∀ i ∈ allocSeq (SCENE_ID_MAX - SCENE_ID_START + 2) SCENE_ID_START,
      SCENE_ID_START ≤ i ∧ i ≤ SCENE_ID_MAX) ∧
    (allocSeq (SCENE_ID_MAX - SCENE_ID_START + 2) SCENE_ID_START).count SCENE_ID_START
      = 2 := by
  refine ⟨fun c => ⟨rfl, rfl⟩, ?_, ?_, ?_⟩ <;> decide

/-- Witness for C9 at the concrete allocated id `100`. -/
theorem scene_id_allocator_wrap_witness :
    SCENE_ID_START ≤ 100 ∧ 100 ≤ SCENE_ID_MAX :=
  scene_id_allocator_wrap.2.2.1 100 (by decide)

/-- C10: the Z-Wave brightness conversion `int(brightness * 99 / 255)`
maps `[0, 255]` into `[0, 99]` (levels are naturals, so the lower bound
is inherent), is monotone non-decreasing, sends `0 ↦ 0` and `255 ↦ 99`,
and `convert_service_data` computes the `level` field with the same
formula used by `_send_multilevel_command`. -/
theorem zwave_brightness_level_conversion :
    (∀ b : Nat, b ≤ 255 → zwaveMultilevelLevel b ≤ 99) ∧
    zwaveMultilevelLevel 0 = 0 ∧
    zwaveMultilevelLevel 255 = 99 ∧
    (∀ a b : Nat, a ≤ b → zwaveMultilevelLevel a ≤ zwaveMultilevelLevel b) ∧
    (∀ (service : String) (b : Nat) (transition : Option Nat),
      alookup "level" (zwaveConvertServiceData service (some b) transition) =
        some (zwaveMultilevelLevel b)) := by
  refine ⟨?_, rfl, rfl, ?_, ?_⟩
  · intro b hb
    calc zwaveMultilevelLevel b = b * 99 / 255 := rfl
      _ ≤ 255 * 99 / 255 := Nat.div_le_div_right (Nat.mul_le_mul_right 99 hb)
      _ = 99 := by norm_num
  · intro a b h
    exact Nat.div_le_div_right (Nat.mul_le_mul_right 99 h)
  · intro service b transition
    cases transition <;> simp [zwaveConvertServiceData, alookup, zwaveMultilevelLevel]

/-- Witness for C10 at brightness `128` (and the monotonicity instance
`10 ≤ 200`). -/
theorem zwave_brightness_level_conversion_witness :
    zwaveMultilevelLevel 128 ≤ 99 ∧ zwaveMultilevelLevel 10 ≤ zwaveMultilevelLevel 200 :=
  ⟨zwave_brightness_level_conversion.1 128 (by decide),
   zwave_brightness_level_conversion.2.2.2.1 10 200 (by decide)⟩

/-- C2: `async_dispatch` reports handled exactly when at least one named
target (entity id, or area/floor/label id under its mapping-key)
resolves to a live mapping, and an unhandled dispatch issues no
commands at all. -/
theorem dispatch_handled_iff (handlers : Handlers)
    (mappings : List (String × GroupMapping)) (domain service : String)
    (data : DispatchData) :
    ((asyncDispatch handlers mappings domain service data).1 = true ↔
      (∃ e ∈ data.entity_id.toList, (alookup e mappings).isSome = true) ∨
      (∃ a ∈ data.area_id.toList, (alookup ("area." ++ a) mappings).isSome = true) ∨
      (∃ f2 ∈ data.floor_id.toList, (alookup ("floor." ++ f2) mappings).isSome = true) ∨
      (∃ l2 ∈ data.label_id.toList, (alookup ("label." ++ l2) mappings).isSome = true)) ∧
    ((asyncDispatch handlers mappings domain service data).1 = false →
      (asyncDispatch handlers mappings domain service data).2 = []) := by
  have hH : (asyncDispatch handlers mappings domain service data).1 =
      ((((data.entity_id.toList.any fun i => (alookup i mappings).isSome) ||
        (data.area_id.toList.any fun a => (alookup ("area." ++ a) mappings).isSome)) ||
        (data.floor_id.toList.any fun f2 => (alookup ("floor." ++ f2) mappings).isSome)) ||
        (data.label_id.toList.any fun l2 => (alookup ("label." ++ l2) mappings).isSome)) := by
    simp [asyncDispatch, targetFold_handled]
  have hconv : ∀ (L : List String) (k : String → String),
      (L.any fun i => (alookup (k i) mappings).isSome) = false →
      ∀ i ∈ L, alookup (k i) mappings = none := by
    intro L k hL i hi
    cases hx : alookup (k i) mappings with
    | none => rfl
    | some m =>
      exfalso
      have htrue : (L.any fun i => (alookup (k i) mappings).isSome) = true :=
        List.any_eq_true.mpr ⟨i, hi, by simp [hx]⟩
      rw [htrue] at hL
      cases hL
  constructor
  · rw [hH]
    simp [List.any_eq_true, or_assoc]
  · intro hf
    rw [hH] at hf
    simp only [Bool.or_eq_false_iff] at hf
    obtain ⟨⟨⟨h1, h2⟩, h3⟩, h4⟩ := hf
    have hA : asyncDispatch handlers mappings domain service data =
        targetFold mappings (fun l2 => "label." ++ l2)
          (fun m => dispatchGroupCalls handlers m domain service) data.label_id.toList
          (targetFold mappings (fun f2 => "floor." ++ f2)
            (fun m => dispatchGroupCalls handlers m domain service) data.floor_id.toList
            (targetFold mappings (fun a => "area." ++ a)
              (fun m => dispatchGroupCalls handlers m domain service) data.area_id.toList
              (targetFold mappings id
                (fun m =>
                  if m.ha_entity_type = GROUPING_TYPE_SCENE then
                    dispatchSceneCalls handlers m domain service
                  else dispatchGroupCalls handlers m domain service)
                data.entity_id.toList (false, [])))) := rfl
    rw [hA]
    rw [targetFold_calls_unhandled _ _ _ _ _
        (hconv data.label_id.toList (fun l2 => "label." ++ l2) h4)]
    rw [targetFold_calls_unhandled _ _ _ _ _
        (hconv data.floor_id.toList (fun f2 => "floor." ++ f2) h3)]
    rw [targetFold_calls_unhandled _ _ _ _ _
        (hconv data.area_id.toList (fun a => "area." ++ a) h2)]
    rw [targetFold_calls_unhandled _ _ _ _ _
        (hconv data.entity_id.toList id h1)]

/-- Witness for C2: the demo group mapping is found by entity-id
targeting, and a dispatch naming only unknown targets is unhandled and
silent. -/
theorem dispatch_handled_iff_witness :
    (asyncDispatch demoHandlers [("group.den", demoOldMapping)] "light" "turn_on"
        { entity_id := .one "group.den" }).1 = true ∧
    (asyncDispatch demoHandlers [("group.den", demoOldMapping)] "light" "turn_on"
        { entity_id := .one "scene.unknown", area_id := .many ["kitchen"] }).2 = [] :=
  ⟨(dispatch_handled_iff demoHandlers [("group.den", demoOldMapping)] "light" "turn_on"
      { entity_id := .one "group.den" }).1.mpr
      (Or.inl ⟨"group.den", by decide, by decide⟩),
   (dispatch_handled_iff demoHandlers [("group.den", demoOldMapping)] "light" "turn_on"
      { entity_id := .one "scene.unknown", area_id := .many ["kitchen"] }).2 (by decide)⟩

/-- C8: the scene-store retry loop attempts the store up to 3 times with
sleeps of `0.5 s × attempt-number` between consecutive attempts (0.5 s
after the first failure, 1 s after the second); with the backing group
created, a failure is recorded into `sync_error` exactly when all three
attempts fail; and one protocol's handler behavior (including failures)
never affects another protocol's native-scene result in the same
provisioning pass. -/
theorem scene_store_retry_and_isolation :
    (∀ (store : Nat → Except String Unit) (p g : String) (sid : Nat),
      (store 0 = .ok () →
        sceneStoreRetry store p g sid = ([.storeScene p g sid 0], .ok ())) ∧
      (∀ e0, store 0 = .error e0 → store 1 = .ok () →
        sceneStoreRetry store p g sid =
          ([.storeScene p g sid 0, .sleep (1 / 2), .storeScene p g sid 1], .ok ())) ∧
      (∀ e0 e1, store 0 = .error e0 → store 1 = .error e1 → store 2 = .ok () →
        sceneStoreRetry store p g sid =
          ([.storeScene p g sid 0, .sleep (1 / 2), .storeScene p g sid 1, .sleep 1,
            .storeScene p g sid 2], .ok ())) ∧
      (∀ e0 e1 e2, store 0 = .error e0 → store 1 = .error e1 → store 2 = .error e2 →
        sceneStoreRetry store p g sid =
          ([.storeScene p g sid 0, .sleep (1 / 2), .storeScene p g sid 1, .sleep 1,
            .storeScene p g sid 2], .error e2))) ∧
    (∀ (handler : Handler) (p sid : String) (nsid : Nat) (es : List SceneEntity)
        (gid : String),
      handler.createGroup (generateGroupName sid p) (es.map (·.info.native_id)) = .ok gid →
      (¬ (provisionNativeSceneModel handler p sid nsid es).err = none ↔
        isOkE (handler.storeScene 0) = false ∧ isOkE (handler.storeScene 1) = false ∧
          isOkE (handler.storeScene 2) = false)) ∧
    (∀ (handlers handlers2 : Handlers) (env : RegistryEnv) (sid : String)
        (counter : Nat) (cfg : List (String × TargetState)) (q : String),
      handlers q = handlers2 q →
      alookup q (provisionSceneCore handlers env sid counter cfg).1.mapping.native_scenes =
        alookup q (provisionSceneCore handlers2 env sid counter cfg).1.mapping.native_scenes) := by
  refine ⟨?_, ?_, ?_⟩
  · intro store p g sid
    exact ⟨fun h0 => sceneStoreRetry_first_ok h0,
      fun e0 h0 h1 => sceneStoreRetry_second_ok h0 h1,
      fun e0 e1 h0 h1 h2 => sceneStoreRetry_third_ok h0 h1 h2,
      fun e0 e1 e2 h0 h1 h2 => sceneStoreRetry_all_fail h0 h1 h2⟩
  · intro handler p sid nsid es gid hcg
    cases h0 : handler.storeScene 0 with
    | ok u =>
      cases u
      have hr := @sceneStoreRetry_first_ok handler.storeScene p
        (generateGroupName sid p) nsid h0
      simp [provisionNativeSceneModel, hcg, hr, isOkE, h0]
    | error e0 =>
      cases h1 : handler.storeScene 1 with
      | ok u =>
        cases u
        have hr := @sceneStoreRetry_second_ok handler.storeScene p
          (generateGroupName sid p) nsid e0 h0 h1
        simp [provisionNativeSceneModel, hcg, hr, isOkE, h0, h1]
      | error e1 =>
        cases h2 : handler.storeScene 2 with
        | ok u =>
          cases u
          have hr := @sceneStoreRetry_third_ok handler.storeScene p
            (generateGroupName sid p) nsid e0 e1 h0 h1 h2
          simp [provisionNativeSceneModel, hcg, hr, isOkE, h0, h1, h2]
        | error e2 =>
          have hr := @sceneStoreRetry_all_fail handler.storeScene p
            (generateGroupName sid p) nsid e0 e1 e2 h0 h1 h2
          simp [provisionNativeSceneModel, hcg, hr, isOkE, h0, h1, h2]
  · intro handlers handlers2 env sid counter cfg q hq
    have hnodup := classifySceneEntities_keys_nodup env cfg
    have e1 := alookup_filterMap_keyed
      (fun a c => (sceneBucketOutcome handlers sid (allocateSceneId counter).1 a c).entry)
      (classifySceneEntities env cfg) q hnodup
    have e2 := alookup_filterMap_keyed
      (fun a c => (sceneBucketOutcome handlers2 sid (allocateSceneId counter).1 a c).entry)
      (classifySceneEntities env cfg) q hnodup
    rw [provisionSceneCore_eq, provisionSceneCore_eq]
    simp only [e1, e2]
    cases alookup q (classifySceneEntities env cfg) with
    | none => rfl
    | some es =>
      simp only [Option.some_bind]
      rw [sceneBucketOutcome_congr hq]

/-- Witness for C8: with a store oracle that fails once and then
succeeds, the retry loop stores twice with a single half-second sleep in
between. -/
theorem scene_store_retry_and_isolation_witness :
    sceneStoreRetry demoFlakyStore "zwave_js" "ha_scene_movie_night_zwave_js" 100 =
      ([.storeScene "zwave_js" "ha_scene_movie_night_zwave_js" 100 0, .sleep (1 / 2),
        .storeScene "zwave_js" "ha_scene_movie_night_zwave_js" 100 1], .ok ()) :=
  (scene_store_retry_and_isolation.1 demoFlakyStore "zwave_js"
      "ha_scene_movie_night_zwave_js" 100).2.1 "timeout" rfl rfl

/-- C3: for a protocol with an active handler, a bucket of exactly one
classified member yields a `NativeGroupRef` with `group_id = None`
holding just that member, and the pass issues no backend group-creation
call for that protocol; a bucket of more than one member only ever
records a `NativeGroupRef` with a populated `group_id`. -/
theorem provision_singleton_no_native_group (handlers : Handlers) (env : RegistryEnv)
    (key ty : String) (l : List String) (P : String) (hP : Handler)
    (es : List ProtocolInfo)
    (hh : handlers P = some hP)
    (hes : alookup P (classifyEntities env l) = some es) :
    (es.length = 1 →
      alookup P (provisionEntityListCore handlers env key ty l).mapping.native_groups =
        some
          { protocol := P
            group_id := none
            group_name := generateGroupName key P
            member_entity_ids := es.map (·.entity_id)
            member_native_ids := es.map (·.native_id) } ∧
      ∀ c ∈ (provisionEntityListCore handlers env key ty l).calls,
        ¬ c.protocolOf = some P) ∧
    (es.length > 1 →
      ∀ r, alookup P (provisionEntityListCore handlers env key ty l).mapping.native_groups
          = some r → r.group_id.isSome = true) := by
  have hnodup := classifyEntities_keys_nodup env l
  have hlk := alookup_filterMap_keyed
    (fun a c => (bucketOutcome handlers key a c).entry) (classifyEntities env l) P hnodup
  have hng : alookup P (provisionEntityListCore handlers env key ty l).mapping.native_groups
      = (bucketOutcome handlers key P es).entry := by
    rw [provisionEntityListCore_eq]
    simp only [hlk]
    rw [hes]
    rfl
  constructor
  · intro h1
    obtain ⟨e, rfl⟩ := List.length_eq_one.mp h1
    constructor
    · rw [hng, bucketOutcome_single handlers key P hP hh e]
      simp
    · intro c hc hPc
      rw [provisionEntityListCore_eq] at hc
      simp only at hc
      rcases List.mem_flatMap.mp hc with ⟨b, hb, hcb⟩
      obtain ⟨q, esb⟩ := b
      have hbP := bucketOutcome_calls_protocol c hcb
      rw [hPc] at hbP
      injection hbP with hqP
      subst hqP
      have hq : alookup P (classifyEntities env l) = some esb :=
        alookup_eq_of_mem_nodup hb hnodup
      rw [hes] at hq
      injection hq with hq2
      subst hq2
      rw [bucketOutcome_single handlers key P hP hh e] at hcb
      cases hcb
  · intro h2 r hr
    rw [hng] at hr
    exact bucketOutcome_entry_isSome h2 hr

/-- Witness for C3: provisioning a group holding the single Z-Wave entity
`light.solo` records a singleton reference with no native group id. -/
theorem provision_singleton_no_native_group_witness :
    alookup PROTOCOL_ZWAVE_JS
        (provisionEntityListCore demoHandlers demoEnv "group.lonely" GROUPING_TYPE_GROUP
            ["light.solo"]).mapping.native_groups =
      some
        { protocol := PROTOCOL_ZWAVE_JS
          group_id := none
          group_name := "ha_group_lonely_zwave_js"
          member_entity_ids := ["light.solo"]
          member_native_ids := [some "5"] } :=
  ((provision_singleton_no_native_group demoHandlers demoEnv "group.lonely"
      GROUPING_TYPE_GROUP ["light.solo"] PROTOCOL_ZWAVE_JS demoZwaveHandler
      [classifyEntity demoEnv "light.solo"] rfl (by decide)).1 rfl).1

/-- C4: a scene-protocol bucket with exactly one member, or whose
handler does not support native scenes (an absent handler included),
yields no `NativeSceneRef` and sends all of its members to
`ungrouped_entities`; conversely a recorded `NativeSceneRef` implies an
active handler supporting native scenes and a bucket of more than one
member. -/
theorem scene_singleton_no_native_scene (handlers : Handlers) (env : RegistryEnv)
    (sid : String) (counter : Nat) (cfg : List (String × TargetState)) :
    (∀ P es, alookup P (classifySceneEntities env cfg) = some es →
      (es.length = 1 ∨ handlerSupportsScenes (handlers P) = false) →
      alookup P
          (provisionSceneCore handlers env sid counter cfg).1.mapping.native_scenes
        = none ∧
      ∀ se ∈ es, se.entity_id ∈
        (provisionSceneCore handlers env sid counter cfg).1.mapping.ungrouped_entities) ∧
    (∀ Q r,
      alookup Q (provisionSceneCore handlers env sid counter cfg).1.mapping.native_scenes
        = some r →
      ∃ h2 es2, handlers Q = some h2 ∧
        alookup Q (classifySceneEntities env cfg) = some es2 ∧
        h2.supportsNativeScenes = true ∧ es2.length > 1) := by
  have hnodup := classifySceneEntities_keys_nodup env cfg
  have hlk : ∀ Q,
      alookup Q (provisionSceneCore handlers env sid counter cfg).1.mapping.native_scenes
        = (alookup Q (classifySceneEntities env cfg)).bind
            (fun es => (sceneBucketOutcome handlers sid (allocateSceneId counter).1 Q
              es).entry) := by
    intro Q
    have e1 := alookup_filterMap_keyed
      (fun a c => (sceneBucketOutcome handlers sid (allocateSceneId counter).1 a c).entry)
      (classifySceneEntities env cfg) Q hnodup
    rw [provisionSceneCore_eq]
    simp only [e1]
  have hung :
      (provisionSceneCore handlers env sid counter cfg).1.mapping.ungrouped_entities
        = (classifySceneEntities env cfg).flatMap
            (fun b => (sceneBucketOutcome handlers sid (allocateSceneId counter).1 b.1
              b.2).ungrouped) := by
    rw [provisionSceneCore_eq]
  refine ⟨?_, ?_⟩
  · intro P es hes hcond
    have hfall : sceneBucketOutcome handlers sid (allocateSceneId counter).1 P es =
        ⟨none, es.map (·.entity_id), none, [], []⟩ := by
      rcases sceneBucketOutcome_cases handlers sid (allocateSceneId counter).1 P es with
        h | ⟨handler, hh, hsup, hlen, hout⟩
      · exact h
      · exfalso
        rcases hcond with h1 | h2
        · rw [h1] at hlen
          exact Nat.lt_irrefl 1 hlen
        · rw [hh] at h2
          simp [handlerSupportsScenes] at h2
          rw [h2] at hsup
          cases hsup
    constructor
    · rw [hlk P, hes]
      simp only [Option.some_bind]
      rw [hfall]
    · intro se hse
      rw [hung]
      refine List.mem_flatMap.mpr ⟨(P, es), alookup_mem hes, ?_⟩
      rw [hfall]
      exact List.mem_map.mpr ⟨se, hse, rfl⟩
  · intro Q r hr
    rw [hlk Q] at hr
    cases hq : alookup Q (classifySceneEntities env cfg) with
    | none => rw [hq] at hr; cases hr
    | some es2 =>
      rw [hq] at hr
      simp only [Option.some_bind] at hr
      rcases sceneBucketOutcome_cases handlers sid (allocateSceneId counter).1 Q es2 with
        h | ⟨handler, hh, hsup, hlen, hout⟩
      · rw [h] at hr; cases hr
      · exact ⟨handler, es2, hh, rfl, hsup, hlen⟩

/-- Witness for C4: a scene whose only member is the single Z-Wave
entity `light.solo` records no native scene and sends the member to
`ungrouped_entities`. -/
theorem scene_singleton_no_native_scene_witness :
    alookup PROTOCOL_ZWAVE_JS
        (provisionSceneCore demoHandlers demoEnv "scene.solo" SCENE_ID_START
            [("light.solo", [("state", "on")])]).1.mapping.native_scenes = none ∧
    "light.solo" ∈
      (provisionSceneCore demoHandlers demoEnv "scene.solo" SCENE_ID_START
          [("light.solo", [("state", "on")])]).1.mapping.ungrouped_entities := by
  have h := (scene_singleton_no_native_scene demoHandlers demoEnv "scene.solo"
      SCENE_ID_START [("light.solo", [("state", "on")])]).1 PROTOCOL_ZWAVE_JS
      [⟨"light.solo", classifyEntity demoEnv "light.solo", [("state", "on")]⟩]
      (by decide) (Or.inl rfl)
  exact ⟨h.1, h.2 ⟨"light.solo", classifyEntity demoEnv "light.solo",
    [("state", "on")]⟩ (by decide)⟩

/-- A member of the protocol-`p` bucket is the classification of its own
entity id, and that classification resolves to protocol `p`. -/
theorem bucketSpec_mem {env : RegistryEnv} {l : List String} {p : String}
    {i : ProtocolInfo} (h : i ∈ bucketSpec env l p) :
    classifyEntity env i.entity_id = i ∧ (classifyEntity env i.entity_id).protocol = p := by
  unfold bucketSpec at h
  rcases List.mem_map.mp h with ⟨eid, hmem, rfl⟩
  exact ⟨rfl, of_decide_eq_true (List.mem_filter.mp hmem).2⟩

/-- Scene analogue of `bucketSpec_mem`. -/
theorem sceneBucketSpec_mem {env : RegistryEnv} {cfg : List (String × TargetState)}
    {p : String} {se : SceneEntity} (h : se ∈ sceneBucketSpec env cfg p) :
    (classifyEntity env se.entity_id).protocol = p := by
  unfold sceneBucketSpec at h
  rcases List.mem_map.mp h with ⟨et, hmem, rfl⟩
  exact of_decide_eq_true (List.mem_filter.mp hmem).2

/-- Entities a scene bucket sends to `ungrouped_entities` come from that
bucket. -/
theorem sceneBucketOutcome_ungrouped_sub {handlers : Handlers} {sid : String}
    {nsid : Nat} {p : String} {es : List SceneEntity} :
    ∀ x ∈ (sceneBucketOutcome handlers sid nsid p es).ungrouped,
      ∃ se ∈ es, se.entity_id = x := by
  intro x hx
  rcases sceneBucketOutcome_cases handlers sid nsid p es with h | ⟨handler, hh, hsup, hlen, hout⟩
  · rw [h] at hx
    rcases List.mem_map.mp hx with ⟨se, hse, rfl⟩
    exact ⟨se, hse, rfl⟩
  · rw [hout, provisionNativeSceneModel_ungrouped] at hx
    cases hx

/-- C7: within one mapping produced by a single provisioning pass —
whether by `_provision_entity_list` or by `_provision_scene` — a member
entity id appears in at most one container: it is never in two different
protocols' member lists and never both in a protocol member list and in
`ungrouped_entities`. -/
theorem provisioned_entity_in_one_container :
    (∀ (handlers : Handlers) (env : RegistryEnv) (key ty : String) (l : List String),
      (∀ P Q rp rq e,
        alookup P (provisionEntityListCore handlers env key ty l).mapping.native_groups
          = some rp →
        alookup Q (provisionEntityListCore handlers env key ty l).mapping.native_groups
          = some rq →
        e ∈ rp.member_entity_ids → e ∈ rq.member_entity_ids → P = Q) ∧
      (∀ P rp e,
        alookup P (provisionEntityListCore handlers env key ty l).mapping.native_groups
          = some rp →
        e ∈ rp.member_entity_ids →
        e ∉ (provisionEntityListCore handlers env key ty l).mapping.ungrouped_entities)) ∧
    (∀ (handlers : Handlers) (env : RegistryEnv) (sid : String) (counter : Nat)
        (cfg : List (String × TargetState)),
      (∀ P Q rp rq e,
        alookup P
            (provisionSceneCore handlers env sid counter cfg).1.mapping.native_scenes
          = some rp →
        alookup Q
            (provisionSceneCore handlers env sid counter cfg).1.mapping.native_scenes
          = some rq →
        e ∈ rp.member_entity_ids → e ∈ rq.member_entity_ids → P = Q) ∧
      (∀ P rp e,
        alookup P
            (provisionSceneCore handlers env sid counter cfg).1.mapping.native_scenes
          = some rp →
        e ∈ rp.member_entity_ids →
        e ∉ (provisionSceneCore handlers env sid counter cfg).1.mapping.ungrouped_entities)) := by
  constructor
  · intro handlers env key ty l
    have hnodup := classifyEntities_keys_nodup env l
    have hng : ∀ P,
        alookup P (provisionEntityListCore handlers env key ty l).mapping.native_groups
          = (alookup P (classifyEntities env l)).bind
              (fun es => (bucketOutcome handlers key P es).entry) := by
      intro P
      have e1 := alookup_filterMap_keyed
        (fun a c => (bucketOutcome handlers key a c).entry) (classifyEntities env l) P
        hnodup
      rw [provisionEntityListCore_eq]
      simp only [e1]
    have hung :
        (provisionEntityListCore handlers env key ty l).mapping.ungrouped_entities
          = (classifyEntities env l).flatMap
              (fun b => (bucketOutcome handlers key b.1 b.2).ungrouped) := by
      rw [provisionEntityListCore_eq]
    -- a member of the recorded ref for P is classified to P
    have hmemP : ∀ P rp e,
        alookup P (provisionEntityListCore handlers env key ty l).mapping.native_groups
          = some rp →
        e ∈ rp.member_entity_ids →
        (classifyEntity env e).protocol = P ∧
          e ∉ (bucketOutcome handlers key P (bucketSpec env l P)).ungrouped := by
      intro P rp e hP he
      rw [hng P] at hP
      cases hq : alookup P (classifyEntities env l) with
      | none => rw [hq] at hP; cases hP
      | some esP =>
        rw [hq] at hP
        simp only [Option.some_bind] at hP
        have hesP := classifyEntities_alookup_some hq
        subst hesP
        have hm := bucketOutcome_entry_members hP e he
        rcases hm.1 with ⟨i, hi, rfl⟩
        have hbs := bucketSpec_mem hi
        exact ⟨hbs.2, hm.2⟩
    constructor
    · intro P Q rp rq e hP hQ heP heQ
      have h1 := (hmemP P rp e hP heP).1
      have h2 := (hmemP Q rq e hQ heQ).1
      rw [h1] at h2
      exact h2
    · intro P rp e hP he hu
      have h1 := hmemP P rp e hP he
      rw [hung] at hu
      rcases List.mem_flatMap.mp hu with ⟨b, hb, hxb⟩
      obtain ⟨q, esb⟩ := b
      have hq : alookup q (classifyEntities env l) = some esb :=
        alookup_eq_of_mem_nodup hb hnodup
      have hesb := classifyEntities_alookup_some hq
      subst hesb
      rcases bucketOutcome_ungrouped_sub e hxb with ⟨i, hi, hie⟩
      have hbs := bucketSpec_mem hi
      rw [hie] at hbs
      have hqP : q = P := by rw [← hbs.2, h1.1]
      subst hqP
      exact h1.2 hxb
  · intro handlers env sid counter cfg
    have hnodup := classifySceneEntities_keys_nodup env cfg
    have hns : ∀ P,
        alookup P (provisionSceneCore handlers env sid counter cfg).1.mapping.native_scenes
          = (alookup P (classifySceneEntities env cfg)).bind
              (fun es => (sceneBucketOutcome handlers sid (allocateSceneId counter).1 P
                es).entry) := by
      intro P
      have e1 := alookup_filterMap_keyed
        (fun a c => (sceneBucketOutcome handlers sid (allocateSceneId counter).1 a c).entry)
        (classifySceneEntities env cfg) P hnodup
      rw [provisionSceneCore_eq]
      simp only [e1]
    have hung :
        (provisionSceneCore handlers env sid counter cfg).1.mapping.ungrouped_entities
          = (classifySceneEntities env cfg).flatMap
              (fun b => (sceneBucketOutcome handlers sid (allocateSceneId counter).1 b.1
                b.2).ungrouped) := by
      rw [provisionSceneCore_eq]
    have hmemP : ∀ P rp e,
        alookup P (provisionSceneCore handlers env sid counter cfg).1.mapping.native_scenes
          = some rp →
        e ∈ rp.member_entity_ids →
        (classifyEntity env e).protocol = P ∧
          (sceneBucketOutcome handlers sid (allocateSceneId counter).1 P
            (sceneBucketSpec env cfg P)).ungrouped = [] := by
      intro P rp e hP he
      rw [hns P] at hP
      cases hq : alookup P (classifySceneEntities env cfg) with
      | none => rw [hq] at hP; cases hP
      | some esP =>
        rw [hq] at hP
        simp only [Option.some_bind] at hP
        have hesP := classifySceneEntities_alookup_some hq
        subst hesP
        rcases sceneBucketOutcome_cases handlers sid (allocateSceneId counter).1 P
            (sceneBucketSpec env cfg P) with h | ⟨handler, hh, hsup, hlen, hout⟩
        · rw [h] at hP; cases hP
        · rw [hout] at hP
          have hr := provisionNativeSceneModel_entry hP
          subst hr
          simp only at he
          rcases List.mem_map.mp he with ⟨se, hse, rfl⟩
          exact ⟨sceneBucketSpec_mem hse,
            by rw [hout]; exact provisionNativeSceneModel_ungrouped _ _ _ _ _⟩
    constructor
    · intro P Q rp rq e hP hQ heP heQ
      have h1 := (hmemP P rp e hP heP).1
      have h2 := (hmemP Q rq e hQ heQ).1
      rw [h1] at h2
      exact h2
    · intro P rp e hP he hu
      have h1 := hmemP P rp e hP he
      rw [hung] at hu
      rcases List.mem_flatMap.mp hu with ⟨b, hb, hxb⟩
      obtain ⟨q, esb⟩ := b
      have hq : alookup q (classifySceneEntities env cfg) = some esb :=
        alookup_eq_of_mem_nodup hb hnodup
      have hesb := classifySceneEntities_alookup_some hq
      subst hesb
      rcases sceneBucketOutcome_ungrouped_sub e hxb with ⟨se, hse, hsee⟩
      have hbs := sceneBucketSpec_mem hse
      rw [hsee] at hbs
      have hqP : q = P := by rw [← hbs, h1.1]
      subst hqP
      rw [h1.2] at hxb
      cases hxb

/-- Witness for C7: in the demo group mapping, the Z-Wave member
`light.sofa` recorded in the protocol member list is not among the
ungrouped entities. -/
theorem provisioned_entity_in_one_container_witness :
    ¬ "light.sofa" ∈ demoOldMapping.ungrouped_entities :=
  (provisioned_entity_in_one_container.1 demoHandlers demoEnv "group.den"
      GROUPING_TYPE_GROUP ["light.sofa", "light.tv"]).2 PROTOCOL_ZWAVE_JS
    { protocol := PROTOCOL_ZWAVE_JS
      group_id := some "ha_group_den_zwave_js"
      group_name := "ha_group_den_zwave_js"
      member_entity_ids := ["light.sofa", "light.tv"]
      member_native_ids := [some "2", some "3"] }
    "light.sofa" (by decide) (by decide)

/-- C1, evaluated at the failing input: provisioning the demo scene
records a `NativeSceneRef` whose backing group
`ha_scene_movie_night_zwave_js` is both referenced by the current mapping
and tracked in the managed-resources contributions — yet the next
reconciliation pass deletes that very group, because
`_async_reconcile` collects managed ids only from `native_groups` and a
scene mapping has none. -/
theorem reconcile_deletes_scene_backing_group :
    alookup PROTOCOL_ZWAVE_JS demoSceneMapping.native_scenes =
      some
        { protocol := PROTOCOL_ZWAVE_JS
          group_name := "ha_scene_movie_night_zwave_js"
          scene_id := 100
          member_entity_ids := ["light.sofa", "light.tv"] } ∧
    "zwave_js:group:ha_scene_movie_night_zwave_js" ∈ demoSceneResult.1.resources ∧
    reconcileDeletes [("scene.movie_night", demoSceneMapping)] PROTOCOL_ZWAVE_JS
        [("ha_scene_movie_night_zwave_js", "ha_scene_movie_night_zwave_js")] =
      ["ha_scene_movie_night_zwave_js"] := by
  refine ⟨rfl, ?_, rfl⟩
  decide

/-- C6 counterexample: a membership-change update that empties a
previously mapped group (`_on_group_updated` with a now-empty member
list) cleans up the managed resources but RETAINS the stale mapping under
the key — the claim says no mapping for the key is retained. -/
theorem emptied_group_mapping_retained :
    (onGroupUpdated demoHandlers demoEnv demoState "group.den" (some [])).1.mappings =
      [("group.den", demoOldMapping)] ∧
    ¬ alookup "group.den"
        (onGroupUpdated demoHandlers demoEnv demoState "group.den" (some [])).1.mappings
      = none := by
  constructor
  · rfl
  · decide

/-- C6 (amended): every provisioning routine with an empty resolved
member set is a no-op — it issues no backend calls, creates no managed
resources and creates no mapping (the state is returned unchanged); a
membership-change update that empties a previously mapped group leaves
the mapping table unchanged, i.e. the prior mapping for the key is
retained rather than removed. -/
theorem empty_member_set_noop :
    (∀ (handlers : Handlers) (env : RegistryEnv) (st : OrchState) (key ty : String),
      provisionEntityList handlers env st key ty [] = (st, [])) ∧
    (∀ (handlers : Handlers) (env : RegistryEnv) (st : OrchState) (gid : String),
      provisionGroup handlers env st gid none = (st, []) ∧
      provisionGroup handlers env st gid (some []) = (st, [])) ∧
    (∀ (handlers : Handlers) (env : RegistryEnv) (st : OrchState) (sid : String),
      provisionScene handlers env st sid none = (st, []) ∧
      provisionScene handlers env st sid (some []) = (st, [])) ∧
    (∀ (handlers : Handlers) (env : RegistryEnv) (st : OrchState) (aid : String),
      provisionArea handlers env st aid [] = (st, [])) ∧
    (∀ (handlers : Handlers) (env : RegistryEnv) (st : OrchState) (fid : String),
      provisionFloor handlers env st fid [] = (st, [])) ∧
    (∀ (handlers : Handlers) (env : RegistryEnv) (st : OrchState) (lid : String),
      provisionLabel handlers env st lid [] = (st, [])) ∧
    (∀ (handlers : Handlers) (env : RegistryEnv) (st : OrchState) (gid : String),
      (onGroupUpdated handlers env st gid (some [])).1.mappings = st.mappings ∧
      (onGroupUpdated handlers env st gid none).1.mappings = st.mappings) :=
  ⟨fun _ _ _ _ _ => rfl,
   fun _ _ _ _ => ⟨rfl, rfl⟩,
   fun _ _ _ _ => ⟨rfl, rfl⟩,
   fun _ _ _ _ => rfl,
   fun _ _ _ _ => rfl,
   fun _ _ _ _ => rfl,
   fun _ _ _ _ => ⟨rfl, rfl⟩⟩

end NativeGroups
